import Mathlib

/-!
Verification development for the Service-Management-Server request workflow.

The definitions below are a shallow embedding of the JavaScript source:
  * `src/routes/requests.js`  — the request lifecycle engine (status machine,
    guards, background expiry and auto-advance, offer/purchase-order side
    effects);
  * `src/utils/notify.js`     — `createNotification` (idempotent upsert on
    `uniqKey`);
  * `src/routes/offers.js`    — the unscoped offer list route;
  * `src/unnamed/part_009`    — the role-scoped offer list route variant.

Conventions of the embedding:
  * Mongo documents are Lean structures; absent fields are `Option` values.
  * Mongo object ids are `Nat`; a handler input id is `Option Nat`, where
    `none` stands for a string that does not parse as an ObjectId (the
    handlers' `parseId` failure branch).
  * Timestamps are `Int` (milliseconds).  JavaScript `setDate(getDate()+d)`
    calendar arithmetic is abstracted as `d * msPerDay`.
  * Collections are lists; `updateOne` updates the first matching document,
    `updateMany` all of them, `insertOne` appends; `findOne` returns the
    first match.  Generated ids come from a `nextId` counter.
  * HTTP responses are `HRes`: `err code msg` for `res.status(code).json({error})`
    and one `ok` constructor per success payload shape.
-/

set_option maxHeartbeats 1000000

namespace SMS

/-! ## Generic list/document-store primitives -/

def findBy {α : Type} (p : α → Bool) : List α → Option α
  | [] => none
  | x :: xs => if p x then some x else findBy p xs

def updateFirstBy {α : Type} (p : α → Bool) (f : α → α) : List α → List α
  | [] => []
  | x :: xs => if p x then f x :: xs else x :: updateFirstBy p f xs

def updateAllBy {α : Type} (p : α → Bool) (f : α → α) (l : List α) : List α :=
  l.map (fun x => if p x then f x else x)

def removeFirstBy {α : Type} (p : α → Bool) : List α → List α
  | [] => []
  | x :: xs => if p x then xs else x :: removeFirstBy p xs

def countBy {α : Type} (p : α → Bool) (l : List α) : Nat :=
  (l.filter p).length

/-! ## JS string helpers (requests.js / notify.js) -/

/-- JS `toUpperCase` (ASCII range, which covers the role/status strings). -/
def jsToUpper (s : String) : String :=
  ⟨s.data.map Char.toUpper⟩

/-- JS `toLowerCase` (ASCII range). -/
def jsToLower (s : String) : String :=
  ⟨s.data.map Char.toLower⟩

/-- JS `trim`: strip leading and trailing whitespace. -/
def jsTrim (s : String) : String :=
  ⟨((s.data.dropWhile Char.isWhitespace).reverse.dropWhile
      Char.isWhitespace).reverse⟩

/-- Model of `String.replace(/\s+/g, "_")`: each maximal run of whitespace becomes one
underscore. -/
def collapseWsAux : List Char → Bool → List Char
  | [], _ => []
  | c :: cs, inRun =>
    if c.isWhitespace then
      if inRun then collapseWsAux cs true else '_' :: collapseWsAux cs true
    else c :: collapseWsAux cs false

def collapseWs (s : String) : String :=
  ⟨collapseWsAux s.data false⟩

/-- Model of `String.replace(/_/g, "")`. -/
def removeUnderscores (s : String) : String :=
  ⟨s.data.filter (fun c => c != '_')⟩

/-- The synonym table of `normalizeRole` in requests.js. -/
def roleMap (k : String) : Option String :=
  if k = "PROJECTMANAGER" then some "PROJECT_MANAGER"
  else if k = "PROJECT_MANAGER" then some "PROJECT_MANAGER"
  else if k = "PROCUREMENTOFFICER" then some "PROCUREMENT_OFFICER"
  else if k = "PROCUREMENT_OFFICER" then some "PROCUREMENT_OFFICER"
  else if k = "RESOURCEPLANNER" then some "RESOURCE_PLANNER"
  else if k = "RESOURCE_PLANNER" then some "RESOURCE_PLANNER"
  else if k = "SYSTEMADMIN" then some "SYSTEM_ADMIN"
  else if k = "SYSTEM_ADMIN" then some "SYSTEM_ADMIN"
  else if k = "SYSTEMADMINISTRATOR" then some "SYSTEM_ADMIN"
  else if k = "SYSTEM_ADMINISTRATOR" then some "SYSTEM_ADMIN"
  else none

/-- Model of `normalizeRole` in requests.js: trim, uppercase, whitespace runs to `_`,
then look the underscore-free form and the underscored form up in the synonym
table. -/
def normalizeRole (raw : String) : String :=
  let s := jsTrim raw
  if s = "" then ""
  else
    let upper := collapseWs (jsToUpper s)
    let noUnderscore := removeUnderscores upper
    match roleMap noUnderscore with
    | some r => r
    | none =>
      match roleMap upper with
      | some r => r
      | none => upper

/-- Model of `normalizeUsername` (identical in requests.js, notify.js, offers.js). -/
def normalizeUsername (raw : String) : String :=
  jsToLower (jsTrim raw)

/-! ## Status and role constants (requests.js) -/

namespace STATUS

def DRAFT : String := "DRAFT"

def IN_REVIEW : String := "IN_REVIEW"

def APPROVED_FOR_SUBMISSION : String := "APPROVED_FOR_SUBMISSION"

def BIDDING : String := "BIDDING"

def BID_EVALUATION : String := "BID_EVALUATION"

def RECOMMENDED : String := "RECOMMENDED"

def SENT_TO_PO : String := "SENT_TO_PO"

def ORDERED : String := "ORDERED"

def REJECTED : String := "REJECTED"

def EXPIRED : String := "EXPIRED"

end STATUS

def ROLE_REVIEWER : String := "PROCUREMENT_OFFICER"

def ROLE_EVALUATOR : String := "PROCUREMENT_OFFICER"

def ROLE_ORDERING : String := "RESOURCE_PLANNER"

def isPM (role : String) : Bool := role == "PROJECT_MANAGER"

def isReviewer (role : String) : Bool := role == ROLE_REVIEWER

def isEvaluator (role : String) : Bool := role == ROLE_EVALUATOR

def isOrderingRole (role : String) : Bool := role == ROLE_ORDERING

def canReadAll (role : String) : Bool :=
  role == "PROJECT_MANAGER" || role == "PROCUREMENT_OFFICER" ||
  role == "RESOURCE_PLANNER" || role == "SYSTEM_ADMIN"

/-! ## Documents -/

/-- A document of the `requests` collection (the fields the route handlers
read or write). -/
structure Request where
  rid : Nat := 0
  title : String := ""
  status : String := ""
  createdBy : String := ""
  maxOffers : Option Int := none
  offersCount : Option Int := none
  biddingCycleDays : Option Int := none
  biddingStartedAt : Option Int := none
  biddingStartedBy : Option String := none
  submittedAt : Option Int := none
  submittedBy : Option String := none
  rpApprovedAt : Option Int := none
  rpApprovedBy : Option String := none
  rpRejectedAt : Option Int := none
  rpRejectedBy : Option String := none
  rpRejectReason : Option String := none
  bidEvaluationAt : Option Int := none
  recommendedOfferId : Option Nat := none
  recommendedAt : Option Int := none
  recommendedBy : Option String := none
  sentToPoAt : Option Int := none
  sentToPoBy : Option String := none
  orderId : Option Nat := none
  orderedAt : Option Int := none
  orderedBy : Option String := none
  orderedOfferId : Option Nat := none
  expiredAt : Option Int := none
  reactivatedAt : Option Int := none
  reactivatedBy : Option String := none
  createdAt : Option Int := none
  updatedAt : Option Int := none
deriving DecidableEq, Repr

/-- A document of the `offers` collection.  requests.js/offers.js read the
submitting party from `providerUsername`; the part_009 variant stores it in
`spUsername` (schemaless store, both fields modeled). -/
structure Offer where
  oid : Nat := 0
  requestId : Nat := 0
  providerUsername : String := ""
  providerName : String := ""
  spUsername : String := ""
  price : Option Int := none
  currency : String := ""
  deliveryDays : Option Int := none
  notes : String := ""
  status : String := ""
  createdAt : Option Int := none
  updatedAt : Option Int := none
deriving DecidableEq, Repr

/-- A document of the `purchase_orders` collection as built by the order
handler (free-text snapshot fields that no handler reads back are kept as the
ones used in the claims). -/
structure PurchaseOrder where
  poId : Nat
  requestId : Nat
  offerId : Nat
  orderedBy : String
  orderedAt : Int
  totalPrice : Option Int
  currency : String
  providerUsername : String
  providerName : String
  deliveryDays : Option Int
  snapshotRequestTitle : String
  snapshotOfferPrice : Option Int
  snapshotOfferCurrency : String
  snapshotOfferDeliveryDays : Option Int
  snapshotOfferNotes : String
  createdAt : Int
  updatedAt : Int
deriving DecidableEq, Repr

/-- A document of the `notifications` collection (notify.js removes `null`
fields before storing; `none` models an absent field). -/
structure Notification where
  uniqKey : Option String := none
  toUsername : Option String := none
  toRole : Option String := none
  ntype : String := "INFO"
  title : String := "Notification"
  message : String := ""
  requestId : Option Nat := none
  createdAt : Int := 0
  read : Bool := false
deriving DecidableEq, Repr

/-- The document store: one field per collection, plus the id generator. -/
structure DB where
  requests : List Request := []
  offers : List Offer := []
  purchaseOrders : List PurchaseOrder := []
  notifications : List Notification := []
  nextId : Nat := 1
deriving DecidableEq, Repr

def findRequest (db : DB) (id : Nat) : Option Request :=
  findBy (fun r => r.rid == id) db.requests

def findOffer (db : DB) (oid : Nat) : Option Offer :=
  findBy (fun o => o.oid == oid) db.offers

/-- Model of `countDocuments` over the offers collection filtered by the
request id. -/
def countOffersFor (db : DB) (rid : Nat) : Nat :=
  countBy (fun o => o.requestId == rid) db.offers

/-! ## notify.js -/

/-- The synonym table of `normalizeRole` in notify.js (it additionally maps
ADMIN and SERVICE_PROVIDER spellings). -/
def notifyRoleMap (k : String) : Option String :=
  if k = "PROJECTMANAGER" then some "PROJECT_MANAGER"
  else if k = "PROJECT_MANAGER" then some "PROJECT_MANAGER"
  else if k = "PROCUREMENTOFFICER" then some "PROCUREMENT_OFFICER"
  else if k = "PROCUREMENT_OFFICER" then some "PROCUREMENT_OFFICER"
  else if k = "RESOURCEPLANNER" then some "RESOURCE_PLANNER"
  else if k = "RESOURCE_PLANNER" then some "RESOURCE_PLANNER"
  else if k = "SYSTEMADMIN" then some "SYSTEM_ADMIN"
  else if k = "SYSTEM_ADMIN" then some "SYSTEM_ADMIN"
  else if k = "ADMIN" then some "SYSTEM_ADMIN"
  else if k = "SERVICEPROVIDER" then some "SERVICE_PROVIDER"
  else if k = "SERVICE_PROVIDER" then some "SERVICE_PROVIDER"
  else none

def notifyNormalizeRole (raw : String) : String :=
  let s := jsTrim raw
  if s = "" then ""
  else
    let upper := collapseWs (jsToUpper s)
    let noUnderscore := removeUnderscores upper
    match notifyRoleMap noUnderscore with
    | some r => r
    | none =>
      match notifyRoleMap upper with
      | some r => r
      | none => upper

/-- The `createNotification` payload (absent argument = `none`). -/
structure NotifPayload where
  uniqKey : Option String := none
  toUsername : Option String := none
  toRole : Option String := none
  ntype : String := ""
  title : String := ""
  message : String := ""
  requestId : Option Nat := none
deriving DecidableEq, Repr

/-- Model of `createNotification` in utils/notify.js: builds the document (falsy
payload fields become `null`/defaults) and, when a `uniqKey` is present,
upserts with `$setOnInsert` — an existing record with the same key is left
unchanged; otherwise it inserts. -/
def createNotification (db : DB) (p : NotifPayload) (now : Int) : DB :=
  let doc : Notification :=
    { uniqKey := match p.uniqKey with
        | some k => if k = "" then none else some k
        | none => none
      toUsername := match p.toUsername with
        | some u => if u = "" then none else some (normalizeUsername u)
        | none => none
      toRole := match p.toRole with
        | some r => if r = "" then none else some (notifyNormalizeRole r)
        | none => none
      ntype := if p.ntype = "" then "INFO" else p.ntype
      title := if p.title = "" then "Notification" else p.title
      message := p.message
      requestId := p.requestId
      createdAt := now
      read := false }
  match doc.uniqKey with
  | some k =>
    if db.notifications.any (fun n => n.uniqKey == some k) then db
    else { db with notifications := db.notifications ++ [doc] }
  | none => { db with notifications := db.notifications ++ [doc] }

/-! ## Background transitions (requests.js) -/

/-- The JS-falsy title default `doc.title || "Untitled"`. -/
def jsTitle (doc : Request) : String :=
  if doc.title = "" then "Untitled" else doc.title

def msPerDay : Int := 86400000

/-- Model of `computeBiddingEndsAt`: `none` models a `biddingStartedAt` that is absent
or does not parse as a date; `biddingCycleDays` falls back to 7 when absent or
non-numeric. -/
def computeBiddingEndsAt (doc : Request) : Option Int :=
  match doc.biddingStartedAt with
  | none => none
  | some start => some (start + doc.biddingCycleDays.getD 7 * msPerDay)

/-- The conditional `updateOne({_id, status: BIDDING}, {$set: {status:
EXPIRED, expiredAt, updatedAt}})` of `ensureExpiredIfDue`. -/
def expireUpdate (db : DB) (id : Nat) (now : Int) : DB :=
  { db with
    requests :=
      updateFirstBy (fun r => r.rid == id && r.status == STATUS.BIDDING)
        (fun r => { r with status := STATUS.EXPIRED, expiredAt := some now,
                           updatedAt := some now })
        db.requests }

/-- Model of `ensureExpiredIfDue` in requests.js. -/
def ensureExpiredIfDue (db : DB) (doc? : Option Request) (now : Int) :
    Option Request × DB :=
  match doc? with
  | none => (none, db)
  | some doc =>
    if jsToUpper doc.status ≠ STATUS.BIDDING then (some doc, db)
    else
      match computeBiddingEndsAt doc with
      | none => (some doc, db)
      | some endsAt =>
        if now < endsAt then (some doc, db)
        else if jsToUpper doc.status = STATUS.EXPIRED then (some doc, db)
        else
          let db1 := expireUpdate db doc.rid now
          let db2 :=
            if doc.createdBy ≠ "" then
              createNotification db1
                { uniqKey := some (toString doc.rid ++ ":EXPIRED")
                  toUsername := some doc.createdBy
                  ntype := "REQUEST_EXPIRED"
                  title := "Request expired"
                  message := "Your request \"" ++ jsTitle doc ++
                    "\" has expired after the bidding cycle."
                  requestId := some doc.rid } now
            else db1
          (findRequest db2 doc.rid, db2)

/-- The offer count `autoCompleteBiddingIfEnoughOffers` works with: the
aggregation-attached `offersCount` when present, otherwise a live count. -/
def effOffersCount (db : DB) (d : Request) : Int :=
  match d.offersCount with
  | some n => n
  | none => (countOffersFor db d.rid : Int)

/-- The conditional `updateOne({_id, status: BIDDING}, {$set: {status:
BID_EVALUATION, bidEvaluationAt, updatedAt}})` of
`autoCompleteBiddingIfEnoughOffers`. -/
def autoAdvanceUpdate (db : DB) (id : Nat) (now : Int) : DB :=
  { db with
    requests :=
      updateFirstBy (fun r => r.rid == id && r.status == STATUS.BIDDING)
        (fun r => { r with status := STATUS.BID_EVALUATION,
                           bidEvaluationAt := some now, updatedAt := some now })
        db.requests }

/-- Model of `autoCompleteBiddingIfEnoughOffers` in requests.js. -/
def autoCompleteBiddingIfEnoughOffers (db : DB) (doc? : Option Request)
    (now : Int) : Option Request × DB :=
  match doc? with
  | none => (none, db)
  | some d =>
    let cnt : Int := effOffersCount db d
    if jsToUpper d.status ≠ STATUS.BIDDING then
      (some { d with offersCount := some cnt }, db)
    else if d.maxOffers.getD 0 ≤ 0 then
      (some { d with offersCount := some cnt }, db)
    else if cnt ≥ d.maxOffers.getD 0 then
      let db1 := autoAdvanceUpdate db d.rid now
      let db2 :=
        if d.createdBy ≠ "" then
          createNotification db1
            { uniqKey := some (toString d.rid ++ ":AUTO_TO_BID_EVAL_PM")
              toUsername := some d.createdBy
              ntype := "REQUEST_STATUS"
              title := "Bidding completed"
              message := "Your request \"" ++ jsTitle d ++
                "\" moved to BID_EVALUATION (offers reached max)."
              requestId := some d.rid } now
        else db1
      let db3 := createNotification db2
        { uniqKey := some (toString d.rid ++ ":AUTO_TO_BID_EVAL_EVALUATOR")
          toRole := some ROLE_EVALUATOR
          ntype := "REQUEST_STATUS"
          title := "Requests ready for evaluation"
          message := "Request \"" ++ jsTitle d ++ "\" is now in BID_EVALUATION."
          requestId := some d.rid } now
      (some { d with status := STATUS.BID_EVALUATION, offersCount := some cnt },
       db3)
    else (some { d with offersCount := some cnt }, db)

/-! ## Auth boundary and response shapes -/

structure ErrResp where
  code : Nat
  msg : String
deriving DecidableEq, Repr

structure UserCtx where
  role : String
  username : String
deriving DecidableEq, Repr

/-- Model of `getUser` in requests.js: normalize the `x-user-role` header (missing
header = `""`), reject when empty, normalize `x-username`. -/
def getUser (roleHdr userHdr : String) : Except ErrResp UserCtx :=
  let role := normalizeRole roleHdr
  if role = "" then Except.error ⟨401, "Missing x-user-role"⟩
  else Except.ok ⟨role, normalizeUsername userHdr⟩

/-- Model of `isOwner` in requests.js. -/
def isOwner (doc : Request) (username : String) : Bool :=
  if username = "" then false
  else normalizeUsername doc.createdBy == normalizeUsername username

/-- A handler response: `err code msg` for `res.status(code).json({error:msg})`,
one `ok` constructor per success payload shape. -/
inductive HRes where
  | err (code : Nat) (msg : String)
  | okReq (doc : Option Request)
  | okRecommend (doc : Option Request) (offers : List Offer)
  | okOrder (orderId : Nat) (doc : Option Request)
  | okCreate (id : Nat)
  | okDelete
  | okList (offers : List Offer)
deriving DecidableEq, Repr

/-- The request-body fields of the modeled document projection; the create
and update handlers spread the body into the stored document (`{...req.body}`),
so each present field is copied verbatim. -/
structure ReqBody where
  title : Option String := none
  status : Option String := none
  maxOffers : Option Int := none
  biddingCycleDays : Option Int := none
  createdBy : Option String := none
deriving DecidableEq, Repr

/-- The update `$set` of the spread request body, restricted to the modeled
fields. -/
def applyBody (b : ReqBody) (r : Request) : Request :=
  { r with
    title := b.title.getD r.title
    status := b.status.getD r.status
    maxOffers := match b.maxOffers with
      | some v => some v
      | none => r.maxOffers
    biddingCycleDays := match b.biddingCycleDays with
      | some v => some v
      | none => r.biddingCycleDays
    createdBy := b.createdBy.getD r.createdBy }

/-! ## Route handlers (requests.js) -/

/-- POST `/` (create): PROJECT_MANAGER only, requires a nonempty title,
inserts a DRAFT document owned by the caller (the spread body cannot override
`status`: the handler sets it after the spread). -/
def createRequestHandler (db : DB) (roleHdr userHdr : String) (body : ReqBody)
    (now : Int) : HRes × DB :=
  match getUser roleHdr userHdr with
  | Except.error e => (HRes.err e.code e.msg, db)
  | Except.ok u =>
    if !(isPM u.role) then
      (HRes.err 403 "Only PROJECT_MANAGER can create requests", db)
    else if u.username = "" then (HRes.err 401 "Missing x-username", db)
    else if jsTrim (body.title.getD "") = "" then
      (HRes.err 400 "Title is required", db)
    else
      let rid := db.nextId
      let doc : Request :=
        { applyBody body {} with
          rid := rid
          status := STATUS.DRAFT
          createdBy := normalizeUsername u.username
          createdAt := some now
          updatedAt := some now }
      let db1 := { db with requests := db.requests ++ [doc],
                           nextId := db.nextId + 1 }
      let db2 := createNotification db1
        { toUsername := some doc.createdBy
          ntype := "REQUEST_STATUS"
          title := "Request created"
          message := "You created a new request \"" ++ jsTitle doc ++
            "\" (DRAFT)."
          requestId := some rid } now
      (HRes.okCreate rid, db2)

/-- PUT `/:id` (update): PROJECT_MANAGER, owner, DRAFT only; then
`updateOne({_id}, {$set: {...req.body, updatedAt}})`. -/
def updateRequestHandler (db : DB) (roleHdr userHdr : String)
    (id? : Option Nat) (body : ReqBody) (now : Int) : HRes × DB :=
  match getUser roleHdr userHdr with
  | Except.error e => (HRes.err e.code e.msg, db)
  | Except.ok u =>
    if !(isPM u.role) then
      (HRes.err 403 "Only PROJECT_MANAGER can update requests", db)
    else if u.username = "" then (HRes.err 401 "Missing x-username", db)
    else
      match id? with
      | none => (HRes.err 400 "Invalid request id", db)
      | some id =>
        match findRequest db id with
        | none => (HRes.err 404 "Request not found", db)
        | some existing =>
          if !(isOwner existing u.username) then (HRes.err 403 "Not allowed", db)
          else if jsToUpper existing.status ≠ STATUS.DRAFT then
            (HRes.err 403 "Only DRAFT requests can be edited", db)
          else
            let db1 := { db with
              requests :=
                updateFirstBy (fun r => r.rid == id)
                  (fun r => { applyBody body r with updatedAt := some now })
                  db.requests }
            (HRes.okReq (findRequest db1 id), db1)

/-- DELETE `/:id`: PROJECT_MANAGER, owner, DRAFT only; then `deleteOne`. -/
def deleteRequestHandler (db : DB) (roleHdr userHdr : String)
    (id? : Option Nat) : HRes × DB :=
  match getUser roleHdr userHdr with
  | Except.error e => (HRes.err e.code e.msg, db)
  | Except.ok u =>
    if !(isPM u.role) then
      (HRes.err 403 "Only PROJECT_MANAGER can delete requests", db)
    else if u.username = "" then (HRes.err 401 "Missing x-username", db)
    else
      match id? with
      | none => (HRes.err 400 "Invalid request id", db)
      | some id =>
        match findRequest db id with
        | none => (HRes.err 404 "Request not found", db)
        | some existing =>
          if !(isOwner existing u.username) then (HRes.err 403 "Not allowed", db)
          else if jsToUpper existing.status ≠ STATUS.DRAFT then
            (HRes.err 403 "Only DRAFT requests can be deleted", db)
          else
            (HRes.okDelete,
             { db with requests := removeFirstBy (fun r => r.rid == id) db.requests })

/-- The `updateOne({_id}, ...)` of the submit-for-review handler (filters on
`_id` only — no expected-status precondition). -/
def submitForReviewUpdate (db : DB) (id : Nat) (uname : String) (now : Int) :
    DB :=
  { db with
    requests :=
      updateFirstBy (fun r => r.rid == id)
        (fun r => { r with status := STATUS.IN_REVIEW, submittedAt := some now,
                           submittedBy := some uname, updatedAt := some now })
        db.requests }

/-- POST `/:id/submit-for-review`: PROJECT_MANAGER, owner, DRAFT only. -/
def submitForReviewHandler (db : DB) (roleHdr userHdr : String)
    (id? : Option Nat) (now : Int) : HRes × DB :=
  match getUser roleHdr userHdr with
  | Except.error e => (HRes.err e.code e.msg, db)
  | Except.ok u =>
    if !(isPM u.role) then
      (HRes.err 403 "Only PROJECT_MANAGER can submit for review", db)
    else if u.username = "" then (HRes.err 401 "Missing x-username", db)
    else
      match id? with
      | none => (HRes.err 400 "Invalid request id", db)
      | some id =>
        match findRequest db id with
        | none => (HRes.err 404 "Request not found", db)
        | some doc =>
          if !(isOwner doc u.username) then (HRes.err 403 "Not allowed", db)
          else if jsToUpper doc.status ≠ STATUS.DRAFT then
            (HRes.err 403 "Only DRAFT can be submitted for review", db)
          else
            let db1 := submitForReviewUpdate db id (normalizeUsername u.username) now
            let db2 := createNotification db1
              { uniqKey := some (toString id ++ ":SUBMITTED_FOR_REVIEW_REVIEWER")
                toRole := some ROLE_REVIEWER
                ntype := "REQUEST_STATUS"
                title := "New request in review"
                message := "Request \"" ++ jsTitle doc ++
                  "\" submitted for review."
                requestId := some id } now
            let db3 := createNotification db2
              { uniqKey := some (toString id ++ ":SUBMITTED_FOR_REVIEW_PM")
                toUsername := some doc.createdBy
                ntype := "REQUEST_STATUS"
                title := "Submitted for review"
                message := "Your request \"" ++ jsTitle doc ++
                  "\" is now IN_REVIEW."
                requestId := some id } now
            (HRes.okReq (findRequest db3 id), db3)

/-- The `updateOne({_id}, ...)` of the rp-approve handler (filters on `_id`
only). -/
def rpApproveUpdate (db : DB) (id : Nat) (uname : String) (now : Int) : DB :=
  { db with
    requests :=
      updateFirstBy (fun r => r.rid == id)
        (fun r => { r with status := STATUS.APPROVED_FOR_SUBMISSION,
                           rpApprovedAt := some now, rpApprovedBy := some uname,
                           updatedAt := some now })
        db.requests }

/-- POST `/:id/rp-approve`: reviewer role (PROCUREMENT_OFFICER) on an
IN_REVIEW request. -/
def rpApproveHandler (db : DB) (roleHdr userHdr : String) (id? : Option Nat)
    (now : Int) : HRes × DB :=
  match getUser roleHdr userHdr with
  | Except.error e => (HRes.err e.code e.msg, db)
  | Except.ok u =>
    if !(isReviewer u.role) then
      (HRes.err 403 ("Only " ++ ROLE_REVIEWER ++ " can approve"), db)
    else if u.username = "" then (HRes.err 401 "Missing x-username", db)
    else
      match id? with
      | none => (HRes.err 400 "Invalid request id", db)
      | some id =>
        match findRequest db id with
        | none => (HRes.err 404 "Request not found", db)
        | some doc =>
          if jsToUpper doc.status ≠ STATUS.IN_REVIEW then
            (HRes.err 403 "Only IN_REVIEW requests can be approved", db)
          else
            let db1 := rpApproveUpdate db id (normalizeUsername u.username) now
            let db2 := createNotification db1
              { uniqKey := some (toString id ++ ":REVIEW_APPROVED")
                toUsername := some doc.createdBy
                ntype := "REQUEST_STATUS"
                title := "Request approved"
                message := "Your request \"" ++ jsTitle doc ++
                  "\" was approved for submission."
                requestId := some id } now
            (HRes.okReq (findRequest db2 id), db2)

/-- The `updateOne({_id}, ...)` of the rp-reject handler (filters on `_id`
only). -/
def rpRejectUpdate (db : DB) (id : Nat) (uname reason : String) (now : Int) :
    DB :=
  { db with
    requests :=
      updateFirstBy (fun r => r.rid == id)
        (fun r => { r with status := STATUS.REJECTED, rpRejectedAt := some now,
                           rpRejectedBy := some uname,
                           rpRejectReason := some reason,
                           updatedAt := some now })
        db.requests }

/-- POST `/:id/rp-reject`: reviewer role (PROCUREMENT_OFFICER) on an
IN_REVIEW request; stores the trimmed reason. -/
def rpRejectHandler (db : DB) (roleHdr userHdr : String) (id? : Option Nat)
    (reason : String) (now : Int) : HRes × DB :=
  match getUser roleHdr userHdr with
  | Except.error e => (HRes.err e.code e.msg, db)
  | Except.ok u =>
    if !(isReviewer u.role) then
      (HRes.err 403 ("Only " ++ ROLE_REVIEWER ++ " can reject"), db)
    else if u.username = "" then (HRes.err 401 "Missing x-username", db)
    else
      match id? with
      | none => (HRes.err 400 "Invalid request id", db)
      | some id =>
        match findRequest db id with
        | none => (HRes.err 404 "Request not found", db)
        | some doc =>
          if jsToUpper doc.status ≠ STATUS.IN_REVIEW then
            (HRes.err 403 "Only IN_REVIEW requests can be rejected", db)
          else
            let rsn := jsTrim reason
            let db1 := rpRejectUpdate db id (normalizeUsername u.username) rsn now
            let db2 := createNotification db1
              { uniqKey := some (toString id ++ ":REVIEW_REJECTED")
                toUsername := some doc.createdBy
                ntype := "REQUEST_STATUS"
                title := "Request rejected"
                message := jsTrim ("Your request \"" ++ jsTitle doc ++
                  "\" was rejected. " ++
                  (if rsn = "" then "" else "Reason: " ++ rsn))
                requestId := some id } now
            (HRes.okReq (findRequest db2 id), db2)

/-- The `updateOne({_id}, ...)` of the submit-for-bidding handler (filters on
`_id` only). -/
def submitForBiddingUpdate (db : DB) (id : Nat) (uname : String) (now : Int) :
    DB :=
  { db with
    requests :=
      updateFirstBy (fun r => r.rid == id)
        (fun r => { r with status := STATUS.BIDDING,
                           biddingStartedAt := some now,
                           biddingStartedBy := some uname,
                           updatedAt := some now })
        db.requests }

/-- POST `/:id/submit-for-bidding`: PROJECT_MANAGER, owner,
APPROVED_FOR_SUBMISSION only. -/
def submitForBiddingHandler (db : DB) (roleHdr userHdr : String)
    (id? : Option Nat) (now : Int) : HRes × DB :=
  match getUser roleHdr userHdr with
  | Except.error e => (HRes.err e.code e.msg, db)
  | Except.ok u =>
    if !(isPM u.role) then
      (HRes.err 403 "Only PROJECT_MANAGER can submit for bidding", db)
    else if u.username = "" then (HRes.err 401 "Missing x-username", db)
    else
      match id? with
      | none => (HRes.err 400 "Invalid request id", db)
      | some id =>
        match findRequest db id with
        | none => (HRes.err 404 "Request not found", db)
        | some doc =>
          if !(isOwner doc u.username) then (HRes.err 403 "Not allowed", db)
          else if jsToUpper doc.status ≠ STATUS.APPROVED_FOR_SUBMISSION then
            (HRes.err 403 "Only APPROVED_FOR_SUBMISSION can go to BIDDING", db)
          else
            let db1 := submitForBiddingUpdate db id (normalizeUsername u.username) now
            let db2 := createNotification db1
              { uniqKey := some (toString id ++ ":BIDDING_OPEN_SP")
                toRole := some "SERVICE_PROVIDER"
                ntype := "REQUEST_STATUS"
                title := "New bidding request"
                message := "New request \"" ++ jsTitle doc ++
                  "\" is open for bidding."
                requestId := some id } now
            let db3 := createNotification db2
              { uniqKey := some (toString id ++ ":BIDDING_OPEN_PM")
                toUsername := some doc.createdBy
                ntype := "REQUEST_STATUS"
                title := "Bidding started"
                message := "Your request \"" ++ jsTitle doc ++
                  "\" is now BIDDING."
                requestId := some id } now
            (HRes.okReq (findRequest db3 id), db3)

/-- The conditional `updateOne({_id, status: EXPIRED}, ...)` of the
reactivate handler (includes the expected prior status and `$unset`s the
bidding fields). -/
def reactivateUpdate (db : DB) (id : Nat) (uname : String) (now : Int) : DB :=
  { db with
    requests :=
      updateFirstBy (fun r => r.rid == id && r.status == STATUS.EXPIRED)
        (fun r => { r with status := STATUS.APPROVED_FOR_SUBMISSION,
                           reactivatedAt := some now,
                           reactivatedBy := some uname,
                           updatedAt := some now,
                           biddingStartedAt := none,
                           biddingStartedBy := none,
                           expiredAt := none })
        db.requests }

/-- POST `/:id/reactivate`: PROJECT_MANAGER, owner, EXPIRED only. -/
def reactivateHandler (db : DB) (roleHdr userHdr : String) (id? : Option Nat)
    (now : Int) : HRes × DB :=
  match getUser roleHdr userHdr with
  | Except.error e => (HRes.err e.code e.msg, db)
  | Except.ok u =>
    if !(isPM u.role) then
      (HRes.err 403 "Only PROJECT_MANAGER can reactivate", db)
    else if u.username = "" then (HRes.err 401 "Missing x-username", db)
    else
      match id? with
      | none => (HRes.err 400 "Invalid request id", db)
      | some id =>
        match findRequest db id with
        | none => (HRes.err 404 "Request not found", db)
        | some doc =>
          if !(isOwner doc u.username) then (HRes.err 403 "Not allowed", db)
          else if jsToUpper doc.status ≠ STATUS.EXPIRED then
            (HRes.err 403 "Only EXPIRED requests can be reactivated", db)
          else
            let db1 := reactivateUpdate db id (normalizeUsername u.username) now
            let db2 := createNotification db1
              { uniqKey := some (toString id ++ ":REACTIVATED")
                toUsername := some doc.createdBy
                ntype := "REQUEST_STATUS"
                title := "Request reactivated"
                message := "Your request \"" ++ jsTitle doc ++
                  "\" was reactivated to APPROVED_FOR_SUBMISSION."
                requestId := some id } now
            (HRes.okReq (findRequest db2 id), db2)

/-- The two offer writes of the recommend handler: `updateMany` demotes every
RECOMMENDED offer of the request back to SUBMITTED, then `updateOne` promotes
the selected offer to RECOMMENDED. -/
def recommendOffersWrite (offers : List Offer) (rid oid : Nat) (now : Int) :
    List Offer :=
  let demoted :=
    updateAllBy (fun o => o.requestId == rid && o.status == "RECOMMENDED")
      (fun o => { o with status := "SUBMITTED", updatedAt := some now }) offers
  updateFirstBy (fun o => o.oid == oid)
    (fun o => { o with status := "RECOMMENDED", updatedAt := some now }) demoted

/-- The `updateOne({_id}, ...)` of the recommend handler on the request
(filters on `_id` only). -/
def recommendRequestUpdate (db : DB) (id oid : Nat) (uname : String)
    (now : Int) : DB :=
  { db with
    requests :=
      updateFirstBy (fun r => r.rid == id)
        (fun r => { r with status := STATUS.RECOMMENDED,
                           recommendedOfferId := some oid,
                           recommendedAt := some now,
                           recommendedBy := some uname,
                           updatedAt := some now })
        db.requests }

/-- POST `/:id/po-recommend-offer` (`recommendOfferHandler`): evaluator role
(PROCUREMENT_OFFICER); applies the two lazy background transitions first,
requires the (possibly advanced) status to be BID_EVALUATION and the offer to
belong to the request, demotes the previously RECOMMENDED offers, promotes the
chosen one, and moves the request to RECOMMENDED. -/
def recommendOfferHandler (db : DB) (roleHdr userHdr : String)
    (id? : Option Nat) (bodyOfferId : Option Nat) (now : Int) : HRes × DB :=
  match getUser roleHdr userHdr with
  | Except.error e => (HRes.err e.code e.msg, db)
  | Except.ok u =>
    if !(isEvaluator u.role) then
      (HRes.err 403 ("Only " ++ ROLE_EVALUATOR ++ " can recommend"), db)
    else if u.username = "" then (HRes.err 401 "Missing x-username", db)
    else
      match id? with
      | none => (HRes.err 400 "Invalid request id", db)
      | some id =>
        match findRequest db id with
        | none => (HRes.err 404 "Request not found", db)
        | some doc0 =>
          let r1 := ensureExpiredIfDue db (some doc0) now
          let r2 := autoCompleteBiddingIfEnoughOffers r1.2 r1.1 now
          match r2.1 with
          | none => (HRes.err 500 "Server error", r2.2)
          | some doc =>
            if jsToUpper doc.status ≠ STATUS.BID_EVALUATION then
              (HRes.err 403 "Only BID_EVALUATION can be recommended", r2.2)
            else
              match bodyOfferId with
              | none => (HRes.err 400 "offerId is required", r2.2)
              | some oid =>
                match findOffer r2.2 oid with
                | none => (HRes.err 404 "Offer not found", r2.2)
                | some offer =>
                  if offer.requestId ≠ doc.rid then
                    (HRes.err 403 "Offer does not belong to this request", r2.2)
                  else
                    let dbo := r2.2
                    let db1 := { dbo with
                      offers := recommendOffersWrite dbo.offers doc.rid oid now }
                    let db2 := recommendRequestUpdate db1 id oid
                      (normalizeUsername u.username) now
                    let db3 := createNotification db2
                      { uniqKey := some (toString id ++ ":RECOMMENDED_PM")
                        toUsername := some doc.createdBy
                        ntype := "REQUEST_STATUS"
                        title := "Offer recommended"
                        message := "Request \"" ++ jsTitle doc ++
                          "\" is now RECOMMENDED."
                        requestId := some id } now
                    let db4 := createNotification db3
                      { uniqKey := some (toString id ++ ":RECOMMENDED_ORDERING_ROLE")
                        toRole := some ROLE_ORDERING
                        ntype := "REQUEST_STATUS"
                        title := "Upcoming order request"
                        message := "Request \"" ++ jsTitle doc ++
                          "\" is RECOMMENDED (PM may send for ordering soon)."
                        requestId := some id } now
                    (HRes.okRecommend (findRequest db4 id)
                       (db4.offers.filter (fun o => o.requestId == doc.rid)),
                     db4)

/-- The conditional `updateOne({_id, status: RECOMMENDED}, ...)` of the
send-to-po handler. -/
def sendToPoUpdate (db : DB) (id : Nat) (uname : String) (now : Int) : DB :=
  { db with
    requests :=
      updateFirstBy (fun r => r.rid == id && r.status == STATUS.RECOMMENDED)
        (fun r => { r with status := STATUS.SENT_TO_PO,
                           sentToPoAt := some now, sentToPoBy := some uname,
                           updatedAt := some now })
        db.requests }

/-- POST `/:id/send-to-po`: PROJECT_MANAGER, owner, RECOMMENDED only. -/
def sendToPoHandler (db : DB) (roleHdr userHdr : String) (id? : Option Nat)
    (now : Int) : HRes × DB :=
  match getUser roleHdr userHdr with
  | Except.error e => (HRes.err e.code e.msg, db)
  | Except.ok u =>
    if !(isPM u.role) then (HRes.err 403 "Only PROJECT_MANAGER", db)
    else if u.username = "" then (HRes.err 401 "Missing x-username", db)
    else
      match id? with
      | none => (HRes.err 400 "Invalid request id", db)
      | some id =>
        match findRequest db id with
        | none => (HRes.err 404 "Request not found", db)
        | some doc =>
          if !(isOwner doc u.username) then (HRes.err 403 "Not allowed", db)
          else if jsToUpper doc.status ≠ STATUS.RECOMMENDED then
            (HRes.err 403 "Only RECOMMENDED can be sent to PO", db)
          else
            let db1 := sendToPoUpdate db id (normalizeUsername u.username) now
            let db2 := createNotification db1
              { uniqKey := some (toString id ++ ":SENT_TO_PO")
                toRole := some ROLE_ORDERING
                ntype := "REQUEST_SENT_TO_PO"
                title := "New request for ordering"
                message := "A request \"" ++ jsTitle doc ++
                  "\" is ready for ordering."
                requestId := some doc.rid } now
            let db3 := createNotification db2
              { uniqKey := some (toString id ++ ":SENT_TO_PO_PM")
                toUsername := some doc.createdBy
                ntype := "REQUEST_STATUS"
                title := "Sent to procurement"
                message := "Your request \"" ++ jsTitle doc ++
                  "\" is now SENT_TO_PO."
                requestId := some doc.rid } now
            (HRes.okReq (findRequest db3 id), db3)

/-- The purchase-order document built by the order handler (price/currency
snapshot from the offer, title snapshot from the request). -/
def buildPurchaseOrder (poId : Nat) (requestDoc : Request) (offer : Offer)
    (uname : String) (now : Int) : PurchaseOrder :=
  { poId := poId
    requestId := requestDoc.rid
    offerId := offer.oid
    orderedBy := uname
    orderedAt := now
    totalPrice := offer.price
    currency := if offer.currency = "" then "EUR" else offer.currency
    providerUsername := offer.providerUsername
    providerName := offer.providerName
    deliveryDays := offer.deliveryDays
    snapshotRequestTitle := requestDoc.title
    snapshotOfferPrice := offer.price
    snapshotOfferCurrency := if offer.currency = "" then "EUR" else offer.currency
    snapshotOfferDeliveryDays := offer.deliveryDays
    snapshotOfferNotes := offer.notes
    createdAt := now
    updatedAt := now }

/-- The conditional `updateOne({_id, status: SENT_TO_PO}, ...)` of the order
handler on the request. -/
def orderRequestUpdate (db : DB) (id orderId oid : Nat) (uname : String)
    (now : Int) : DB :=
  { db with
    requests :=
      updateFirstBy (fun r => r.rid == id && r.status == STATUS.SENT_TO_PO)
        (fun r => { r with status := STATUS.ORDERED, orderId := some orderId,
                           orderedAt := some now, orderedBy := some uname,
                           orderedOfferId := some oid,
                           updatedAt := some now })
        db.requests }

/-- POST `/:id/order`: ordering role (RESOURCE_PLANNER), SENT_TO_PO only;
resolves the offer from the body or `recommendedOfferId`, checks it belongs
to the request, inserts one purchase order, marks the offer ORDERED, and
conditionally moves the request to ORDERED. -/
def orderHandler (db : DB) (roleHdr userHdr : String) (id? : Option Nat)
    (bodyOfferId : Option Nat) (now : Int) : HRes × DB :=
  match getUser roleHdr userHdr with
  | Except.error e => (HRes.err e.code e.msg, db)
  | Except.ok u =>
    if !(isOrderingRole u.role) then
      (HRes.err 403 ("Only " ++ ROLE_ORDERING ++ " can order"), db)
    else if u.username = "" then (HRes.err 401 "Missing x-username", db)
    else
      match id? with
      | none => (HRes.err 400 "Invalid request id", db)
      | some id =>
        match findRequest db id with
        | none => (HRes.err 404 "Request not found", db)
        | some requestDoc =>
          if jsToUpper requestDoc.status ≠ STATUS.SENT_TO_PO then
            (HRes.err 403 "Only SENT_TO_PO can be ordered", db)
          else
            match bodyOfferId.orElse (fun _ => requestDoc.recommendedOfferId) with
            | none => (HRes.err 400 "offerId missing (no recommended offer)", db)
            | some oid =>
              match findOffer db oid with
              | none => (HRes.err 404 "Offer not found", db)
              | some offer =>
                if offer.requestId ≠ requestDoc.rid then
                  (HRes.err 403 "Offer does not belong to request", db)
                else
                  let poId := db.nextId
                  let po := buildPurchaseOrder poId requestDoc offer
                    (normalizeUsername u.username) now
                  let db1 := { db with
                    purchaseOrders := db.purchaseOrders ++ [po],
                    nextId := db.nextId + 1 }
                  let db2 := { db1 with
                    offers :=
                      updateFirstBy (fun o => o.oid == oid)
                        (fun o => { o with status := "ORDERED",
                                           updatedAt := some now })
                        db1.offers }
                  let db3 := orderRequestUpdate db2 id poId offer.oid
                    (normalizeUsername u.username) now
                  let db4 := createNotification db3
                    { uniqKey := some (toString id ++ ":ORDERED_PM")
                      toUsername := some requestDoc.createdBy
                      ntype := "REQUEST_STATUS"
                      title := "Request ordered"
                      message := "Your request \"" ++ jsTitle requestDoc ++
                        "\" is now ORDERED."
                      requestId := some id } now
                  let db5 := createNotification db4
                    { uniqKey := some (toString id ++ ":ORDERED_ORDERING_ROLE")
                      toRole := some ROLE_ORDERING
                      ntype := "REQUEST_STATUS"
                      title := "Order placed"
                      message := "Order placed for request \"" ++
                        jsTitle requestDoc ++ "\"."
                      requestId := some id } now
                  (HRes.okOrder poId (findRequest db5 id), db5)

/-! ## Offer list routes -/

/-- GET `/` of routes/offers.js: no authentication and no scoping — every
offer of the request is returned to any caller. -/
def offersListHandler (db : DB) (requestId? : Option Nat) : HRes × DB :=
  match requestId? with
  | none => (HRes.err 400 "requestId is required", db)
  | some rid =>
    (HRes.okList (db.offers.filter (fun o => o.requestId == rid)), db)

/-- Model of `normalizeRole` in the part_009 offers router: trim, uppercase,
whitespace runs to `_` (no synonym table). -/
def spNormalizeRole (raw : String) : String :=
  collapseWs (jsToUpper (jsTrim raw))

def spIsSP (role : String) : Bool := role == "SERVICE_PROVIDER"

def spIsRP (role : String) : Bool := role == "RESOURCE_PLANNER"

def spIsPM (role : String) : Bool := role == "PROJECT_MANAGER"

def spIsPO (role : String) : Bool := role == "PROCUREMENT_OFFICER"

def canReadOffers (role : String) : Bool :=
  spIsPM role || spIsRP role || spIsPO role || spIsSP role

/-- GET `/` of the part_009 offers router (scoped variant): PM/RP/PO see all
offers of the request, an SP sees only the offers whose `spUsername` is its
own identity, every other role is rejected. -/
def offersListScopedHandler (db : DB) (roleHdr userHdr : String)
    (requestId? : Option Nat) : HRes × DB :=
  let role := spNormalizeRole roleHdr
  let username := normalizeUsername userHdr
  if role = "" then (HRes.err 401 "Missing x-user-role", db)
  else if !(canReadOffers role) then (HRes.err 403 "Not allowed", db)
  else
    match requestId? with
    | none => (HRes.err 400 "requestId is required", db)
    | some rid =>
      if spIsSP role then
        (HRes.okList (db.offers.filter
          (fun o => o.requestId == rid && o.spUsername == username)), db)
      else
        (HRes.okList (db.offers.filter (fun o => o.requestId == rid)), db)

/-! ## The exposed mutating operations, as one dispatch type -/

/-- One constructor per exposed mutating operation of the requests router,
carrying the operation-specific inputs (ids already parsed, `none` for an
unparseable id). -/
inductive Op where
  | createOp (body : ReqBody)
  | updateOp (id : Option Nat) (body : ReqBody)
  | deleteOp (id : Option Nat)
  | submitForReviewOp (id : Option Nat)
  | rpApproveOp (id : Option Nat)
  | rpRejectOp (id : Option Nat) (reason : String)
  | submitForBiddingOp (id : Option Nat)
  | reactivateOp (id : Option Nat)
  | recommendOfferOp (id : Option Nat) (offerId : Option Nat)
  | sendToPoOp (id : Option Nat)
  | orderOp (id : Option Nat) (offerId : Option Nat)
deriving DecidableEq, Repr

/-- Dispatch an operation to its route handler. -/
def applyOp (db : DB) (op : Op) (roleHdr userHdr : String) (now : Int) :
    HRes × DB :=
  match op with
  | Op.createOp body => createRequestHandler db roleHdr userHdr body now
  | Op.updateOp id body => updateRequestHandler db roleHdr userHdr id body now
  | Op.deleteOp id => deleteRequestHandler db roleHdr userHdr id
  | Op.submitForReviewOp id => submitForReviewHandler db roleHdr userHdr id now
  | Op.rpApproveOp id => rpApproveHandler db roleHdr userHdr id now
  | Op.rpRejectOp id reason => rpRejectHandler db roleHdr userHdr id reason now
  | Op.submitForBiddingOp id => submitForBiddingHandler db roleHdr userHdr id now
  | Op.reactivateOp id => reactivateHandler db roleHdr userHdr id now
  | Op.recommendOfferOp id offerId =>
    recommendOfferHandler db roleHdr userHdr id offerId now
  | Op.sendToPoOp id => sendToPoHandler db roleHdr userHdr id now
  | Op.orderOp id offerId => orderHandler db roleHdr userHdr id offerId now

/-- The operation tags (no payload), for stating per-operation metadata. -/
inductive OpKind where
  | createK
  | updateK
  | deleteK
  | submitForReviewK
  | rpApproveK
  | rpRejectK
  | submitForBiddingK
  | reactivateK
  | recommendOfferK
  | sendToPoK
  | orderK
deriving DecidableEq, Repr

def Op.kind : Op → OpKind
  | Op.createOp _ => OpKind.createK
  | Op.updateOp _ _ => OpKind.updateK
  | Op.deleteOp _ => OpKind.deleteK
  | Op.submitForReviewOp _ => OpKind.submitForReviewK
  | Op.rpApproveOp _ => OpKind.rpApproveK
  | Op.rpRejectOp _ _ => OpKind.rpRejectK
  | Op.submitForBiddingOp _ => OpKind.submitForBiddingK
  | Op.reactivateOp _ => OpKind.reactivateK
  | Op.recommendOfferOp _ _ => OpKind.recommendOfferK
  | Op.sendToPoOp _ => OpKind.sendToPoK
  | Op.orderOp _ _ => OpKind.orderK

/-- The request id an operation addresses (`none` for create or an
unparseable id). -/
def Op.reqId : Op → Option Nat
  | Op.createOp _ => none
  | Op.updateOp id _ => id
  | Op.deleteOp id => id
  | Op.submitForReviewOp id => id
  | Op.rpApproveOp id => id
  | Op.rpRejectOp id _ => id
  | Op.submitForBiddingOp id => id
  | Op.reactivateOp id => id
  | Op.recommendOfferOp id _ => id
  | Op.sendToPoOp id => id
  | Op.orderOp id _ => id

/-- The single role each operation's guard authorizes (the table in §4.1
after the source's role swap). -/
def opRole : OpKind → String
  | OpKind.createK => "PROJECT_MANAGER"
  | OpKind.updateK => "PROJECT_MANAGER"
  | OpKind.deleteK => "PROJECT_MANAGER"
  | OpKind.submitForReviewK => "PROJECT_MANAGER"
  | OpKind.rpApproveK => ROLE_REVIEWER
  | OpKind.rpRejectK => ROLE_REVIEWER
  | OpKind.submitForBiddingK => "PROJECT_MANAGER"
  | OpKind.reactivateK => "PROJECT_MANAGER"
  | OpKind.recommendOfferK => ROLE_EVALUATOR
  | OpKind.sendToPoK => "PROJECT_MANAGER"
  | OpKind.orderK => ROLE_ORDERING

/-- Whether the operation's guard also requires the caller to own the
request. -/
def needsOwner : OpKind → Bool
  | OpKind.updateK => true
  | OpKind.deleteK => true
  | OpKind.submitForReviewK => true
  | OpKind.submitForBiddingK => true
  | OpKind.reactivateK => true
  | OpKind.sendToPoK => true
  | _ => false

/-- The wrong-role rejection message of each handler. -/
def roleErrMsg : OpKind → String
  | OpKind.createK => "Only PROJECT_MANAGER can create requests"
  | OpKind.updateK => "Only PROJECT_MANAGER can update requests"
  | OpKind.deleteK => "Only PROJECT_MANAGER can delete requests"
  | OpKind.submitForReviewK => "Only PROJECT_MANAGER can submit for review"
  | OpKind.rpApproveK => "Only " ++ ROLE_REVIEWER ++ " can approve"
  | OpKind.rpRejectK => "Only " ++ ROLE_REVIEWER ++ " can reject"
  | OpKind.submitForBiddingK => "Only PROJECT_MANAGER can submit for bidding"
  | OpKind.reactivateK => "Only PROJECT_MANAGER can reactivate"
  | OpKind.recommendOfferK => "Only " ++ ROLE_EVALUATOR ++ " can recommend"
  | OpKind.sendToPoK => "Only PROJECT_MANAGER"
  | OpKind.orderK => "Only " ++ ROLE_ORDERING ++ " can order"

/-- The invalid-state rejection message of each handler (create has no state
guard; its entry is unused). -/
def stateErrMsg : OpKind → String
  | OpKind.createK => ""
  | OpKind.updateK => "Only DRAFT requests can be edited"
  | OpKind.deleteK => "Only DRAFT requests can be deleted"
  | OpKind.submitForReviewK => "Only DRAFT can be submitted for review"
  | OpKind.rpApproveK => "Only IN_REVIEW requests can be approved"
  | OpKind.rpRejectK => "Only IN_REVIEW requests can be rejected"
  | OpKind.submitForBiddingK => "Only APPROVED_FOR_SUBMISSION can go to BIDDING"
  | OpKind.reactivateK => "Only EXPIRED requests can be reactivated"
  | OpKind.recommendOfferK => "Only BID_EVALUATION can be recommended"
  | OpKind.sendToPoK => "Only RECOMMENDED can be sent to PO"
  | OpKind.orderK => "Only SENT_TO_PO can be ordered"

/-- Holds when the document's current status makes the operation's state
guard fail with no prior background write (for recommend-offer the document
must also not be BIDDING, since a BIDDING document may first be advanced by
the lazy background transitions the handler runs). -/
def wrongStateFor : OpKind → Request → Bool
  | OpKind.createK, _ => false
  | OpKind.updateK, d => jsToUpper d.status != STATUS.DRAFT
  | OpKind.deleteK, d => jsToUpper d.status != STATUS.DRAFT
  | OpKind.submitForReviewK, d => jsToUpper d.status != STATUS.DRAFT
  | OpKind.rpApproveK, d => jsToUpper d.status != STATUS.IN_REVIEW
  | OpKind.rpRejectK, d => jsToUpper d.status != STATUS.IN_REVIEW
  | OpKind.submitForBiddingK, d =>
    jsToUpper d.status != STATUS.APPROVED_FOR_SUBMISSION
  | OpKind.reactivateK, d => jsToUpper d.status != STATUS.EXPIRED
  | OpKind.recommendOfferK, d =>
    jsToUpper d.status != STATUS.BID_EVALUATION &&
    jsToUpper d.status != STATUS.BIDDING
  | OpKind.sendToPoK, d => jsToUpper d.status != STATUS.RECOMMENDED
  | OpKind.orderK, d => jsToUpper d.status != STATUS.SENT_TO_PO

/-- The ten fixed status enum values of requests.js (`STATUS`). -/
def statusOk (s : String) : Bool :=
  s == STATUS.DRAFT || s == STATUS.IN_REVIEW ||
  s == STATUS.APPROVED_FOR_SUBMISSION || s == STATUS.BIDDING ||
  s == STATUS.BID_EVALUATION || s == STATUS.RECOMMENDED ||
  s == STATUS.SENT_TO_PO || s == STATUS.ORDERED ||
  s == STATUS.REJECTED || s == STATUS.EXPIRED

/-- Every stored request's `status` is one of the ten enum values. -/
def dbStatusesOk (db : DB) : Prop :=
  ∀ r ∈ db.requests, statusOk r.status = true

/-- Number of stored notifications carrying a given idempotency key. -/
def notifCountByKey (db : DB) (k : String) : Nat :=
  countBy (fun n => n.uniqKey == some k) db.notifications

/-! ## Store lemmas -/

theorem createNotification_requests (db : DB) (p : NotifPayload) (now : Int) :
    (createNotification db p now).requests = db.requests := by
  simp only [createNotification]
  split
  · split <;> rfl
  · rfl

theorem createNotification_offers (db : DB) (p : NotifPayload) (now : Int) :
    (createNotification db p now).offers = db.offers := by
  simp only [createNotification]
  split
  · split <;> rfl
  · rfl

theorem createNotification_purchaseOrders (db : DB) (p : NotifPayload)
    (now : Int) :
    (createNotification db p now).purchaseOrders = db.purchaseOrders := by
  simp only [createNotification]
  split
  · split <;> rfl
  · rfl

theorem createNotification_nextId (db : DB) (p : NotifPayload) (now : Int) :
    (createNotification db p now).nextId = db.nextId := by
  simp only [createNotification]
  split
  · split <;> rfl
  · rfl

theorem updateFirstBy_id {α : Type} (p : α → Bool) (f : α → α) (l : List α)
    (h : ∀ x ∈ l, p x = false) : updateFirstBy p f l = l := by
  induction l with
  | nil => rfl
  | cons x xs ih =>
    simp [updateFirstBy, h x (List.mem_cons_self x xs),
      ih (fun y hy => h y (List.mem_cons_of_mem x hy))]

theorem mem_updateFirstBy {α : Type} {p : α → Bool} {f : α → α} {y : α}
    {l : List α} (h : y ∈ updateFirstBy p f l) :
    y ∈ l ∨ ∃ x, x ∈ l ∧ p x = true ∧ y = f x := by
  induction l with
  | nil => simp [updateFirstBy] at h
  | cons x xs ih =>
    by_cases hx : p x
    · simp [updateFirstBy, hx] at h
      rcases h with h | h
      · exact Or.inr ⟨x, List.mem_cons_self x xs, hx, h⟩
      · exact Or.inl (List.mem_cons_of_mem x h)
    · simp [updateFirstBy, hx] at h
      rcases h with h | h
      · exact Or.inl (by simp [h])
      · rcases ih h with h2 | ⟨z, hz, hpz, hy⟩
        · exact Or.inl (List.mem_cons_of_mem x h2)
        · exact Or.inr ⟨z, List.mem_cons_of_mem x hz, hpz, hy⟩

theorem mem_removeFirstBy {α : Type} {p : α → Bool} {y : α} {l : List α}
    (h : y ∈ removeFirstBy p l) : y ∈ l := by
  induction l with
  | nil => simp [removeFirstBy] at h
  | cons x xs ih =>
    by_cases hx : p x
    · simp [removeFirstBy, hx] at h
      exact List.mem_cons_of_mem x h
    · simp [removeFirstBy, hx] at h
      rcases h with h | h
      · simp [h]
      · exact List.mem_cons_of_mem x (ih h)

theorem countBy_append {α : Type} (p : α → Bool) (l1 l2 : List α) :
    countBy p (l1 ++ l2) = countBy p l1 + countBy p l2 := by
  simp [countBy, List.filter_append]

theorem countBy_eq_zero {α : Type} (p : α → Bool) (l : List α)
    (h : ∀ x ∈ l, p x = false) : countBy p l = 0 := by
  induction l with
  | nil => rfl
  | cons x xs ih =>
    simp [countBy, List.filter_cons, h x (List.mem_cons_self x xs)]
    have := ih (fun y hy => h y (List.mem_cons_of_mem x hy))
    simpa [countBy] using this

/-- A string ending in a nonempty literal suffix is nonempty. -/
theorem append_ne_empty (a b : String) (hb : b.data ≠ []) : a ++ b ≠ "" := by
  intro h
  apply hb
  have hdata : a.data ++ b.data = [] := by
    have : (a ++ b).data = ("" : String).data := by rw [h]
    simpa [String.data_append] using this
  exact (List.append_eq_nil.mp hdata).2

/-! ## Claim C10 -/

/-- Claim C10: a BIDDING request whose `biddingStartedAt` is absent or does
not parse as a date is never expired by the lazy expiry check — for every
current time the check returns the document unchanged, performs no write and
emits no notification. -/
theorem c10_no_expiry_without_start (db : DB) (doc : Request) (now : Int)
    (hst : jsToUpper doc.status = STATUS.BIDDING)
    (hbs : doc.biddingStartedAt = none) :
    ensureExpiredIfDue db (some doc) now = (some doc, db) := by
  simp [ensureExpiredIfDue, computeBiddingEndsAt, hst, hbs]

/-- Witness for C10 at a concrete BIDDING document with no
`biddingStartedAt`. -/
theorem c10_no_expiry_without_start_witness :
    jsToUpper ({ rid := 1, status := "BIDDING" } : Request).status =
        STATUS.BIDDING ∧
    ensureExpiredIfDue ({} : DB) (some { rid := 1, status := "BIDDING" })
        123456789 = (some { rid := 1, status := "BIDDING" }, ({} : DB)) :=
  ⟨by decide, c10_no_expiry_without_start ({} : DB)
    { rid := 1, status := "BIDDING" } 123456789 (by decide) rfl⟩

/-! ## Claim C3 -/

/-- Claim C3, part of the statement: the background expiry check performed on
a document whose status is not BIDDING (in particular an already-EXPIRED one)
returns the document unchanged, performs no write and emits no
notification. -/
theorem expiry_noop_of_not_bidding (db : DB) (doc : Request) (now : Int)
    (hst : jsToUpper doc.status ≠ STATUS.BIDDING) :
    ensureExpiredIfDue db (some doc) now = (some doc, db) := by
  simp [ensureExpiredIfDue, hst]

/-- A conditional-write fact used for the second expiry run: when no stored
request still matches `{_id, status: BIDDING}` and the `requestId:EXPIRED`
notification already exists, a (re-)run of the due expiry check performs no
write at all and just re-reads the document. -/
theorem expiry_stale_rerun (db : DB) (doc : Request) (now endsAt : Int)
    (hup : jsToUpper doc.status = STATUS.BIDDING)
    (hends : computeBiddingEndsAt doc = some endsAt)
    (hdue : ¬ now < endsAt)
    (hcb : doc.createdBy ≠ "")
    (hnb : ∀ r ∈ db.requests,
      (r.rid == doc.rid && r.status == STATUS.BIDDING) = false)
    (hpres : ∃ x, x ∈ db.notifications ∧
      x.uniqKey = some (toString doc.rid ++ ":EXPIRED")) :
    ensureExpiredIfDue db (some doc) now = (findRequest db doc.rid, db) := by
  have hne : (toString doc.rid ++ ":EXPIRED") ≠ "" :=
    append_ne_empty _ _ (by decide)
  have hnup : ¬ (jsToUpper doc.status = STATUS.EXPIRED) := by rw [hup]; decide
  simp +decide [ensureExpiredIfDue, hup, hends, hdue, hcb, hnup, expireUpdate,
    updateFirstBy_id _ _ _ hnb, createNotification, hne, hpres]

/-- Claim C3: running the expiry check twice on the same due BIDDING
document (stored alone in the requests collection) produces exactly one
EXPIRED transition and exactly one notification for the key
`requestId:EXPIRED`, and the second run changes nothing: no write happens and
the upsert with the same key leaves the stored record unchanged. -/
theorem c3_expiry_idempotent (doc : Request) (offs : List Offer)
    (pos : List PurchaseOrder) (notifs : List Notification) (k : Nat)
    (now now2 : Int) (endsAt : Int)
    (hraw : doc.status = STATUS.BIDDING)
    (hends : computeBiddingEndsAt doc = some endsAt)
    (hdue : ¬ now < endsAt)
    (hdue2 : ¬ now2 < endsAt)
    (hcb : doc.createdBy ≠ "")
    (hkey : ∀ n ∈ notifs,
      n.uniqKey ≠ some (toString doc.rid ++ ":EXPIRED")) :
    let db : DB := { requests := [doc], offers := offs, purchaseOrders := pos,
                     notifications := notifs, nextId := k }
    let run1 := ensureExpiredIfDue db (some doc) now
    run1.1 = some { doc with status := STATUS.EXPIRED, expiredAt := some now,
                             updatedAt := some now } ∧
    run1.2.requests = [{ doc with status := STATUS.EXPIRED,
                                  expiredAt := some now,
                                  updatedAt := some now }] ∧
    notifCountByKey run1.2 (toString doc.rid ++ ":EXPIRED") = 1 ∧
    ensureExpiredIfDue run1.2 (some doc) now2 =
      (findRequest run1.2 doc.rid, run1.2) ∧
    findRequest run1.2 doc.rid = run1.1 ∧
    (∀ (dbx : DB) (d : Request) (t : Int),
      jsToUpper d.status ≠ STATUS.BIDDING →
      ensureExpiredIfDue dbx (some d) t = (some d, dbx)) := by
  intro db run1
  have hne : (toString doc.rid ++ ":EXPIRED") ≠ "" :=
    append_ne_empty _ _ (by decide)
  have hup : jsToUpper doc.status = STATUS.BIDDING := by rw [hraw]; decide
  have hnot : ¬ ∃ x, x ∈ notifs ∧
      x.uniqKey = some (toString doc.rid ++ ":EXPIRED") := by
    rintro ⟨x, hx, he⟩
    exact hkey x hx he
  have hkeyb : ∀ n ∈ notifs,
      (n.uniqKey == some (toString doc.rid ++ ":EXPIRED")) = false :=
    fun n hn => beq_eq_false_iff_ne.mpr (hkey n hn)
  have h1 : run1 =
      (some { doc with status := STATUS.EXPIRED, expiredAt := some now,
                       updatedAt := some now },
       { requests := [{ doc with status := STATUS.EXPIRED,
                                 expiredAt := some now,
                                 updatedAt := some now }]
         offers := offs
         purchaseOrders := pos
         notifications := notifs ++
           [{ uniqKey := some (toString doc.rid ++ ":EXPIRED")
              toUsername := some (normalizeUsername doc.createdBy)
              toRole := none
              ntype := "REQUEST_EXPIRED"
              title := "Request expired"
              message := "Your request \"" ++ jsTitle doc ++
                "\" has expired after the bidding cycle."
              requestId := some doc.rid
              createdAt := now
              read := false }]
         nextId := k }) := by
    simp +decide [run1, db, ensureExpiredIfDue, hup, hends, hdue, hraw, hcb,
      expireUpdate, updateFirstBy, createNotification, hne, hnot,
      findRequest, findBy]
  have hfind : findRequest run1.2 doc.rid = run1.1 := by
    rw [h1]
    simp [findRequest, findBy]
  refine ⟨?_, ?_, ?_, ?_, hfind, fun dbx d t h => expiry_noop_of_not_bidding dbx d t h⟩
  · rw [h1]
  · rw [h1]
  · rw [h1]
    simp only [notifCountByKey, countBy_append]
    rw [countBy_eq_zero _ _ hkeyb]
    simp [countBy]
  · have hnb : ∀ r ∈ run1.2.requests,
        (r.rid == doc.rid && r.status == STATUS.BIDDING) = false := by
      rw [h1]
      intro r hr
      simp only [List.mem_singleton] at hr
      subst hr
      simp +decide
    have hpres : ∃ x, x ∈ run1.2.notifications ∧
        x.uniqKey = some (toString doc.rid ++ ":EXPIRED") := by
      rw [h1]
      refine ⟨{ uniqKey := some (toString doc.rid ++ ":EXPIRED")
                toUsername := some (normalizeUsername doc.createdBy)
                toRole := none
                ntype := "REQUEST_EXPIRED"
                title := "Request expired"
                message := "Your request \"" ++ jsTitle doc ++
                  "\" has expired after the bidding cycle."
                requestId := some doc.rid
                createdAt := now
                read := false }, ?_, rfl⟩
      simp
    exact expiry_stale_rerun run1.2 doc now2 endsAt hup hends hdue2 hcb hnb
      hpres

/-- Witness for C3: a due BIDDING document with `biddingCycleDays = 0`. -/
theorem c3_expiry_idempotent_witness :
    (let doc : Request := { rid := 1, title := "T", status := "BIDDING",
                            createdBy := "alice", biddingStartedAt := some 0,
                            biddingCycleDays := some 0 }
     let db : DB := { requests := [doc] }
     let run1 := ensureExpiredIfDue db (some doc) 5
     run1.1 = some { doc with status := STATUS.EXPIRED, expiredAt := some 5,
                              updatedAt := some 5 } ∧
     run1.2.requests = [{ doc with status := STATUS.EXPIRED,
                                   expiredAt := some 5,
                                   updatedAt := some 5 }] ∧
     notifCountByKey run1.2 "1:EXPIRED" = 1 ∧
     ensureExpiredIfDue run1.2 (some doc) 77 =
       (findRequest run1.2 1, run1.2) ∧
     findRequest run1.2 1 = run1.1 ∧
     ensureExpiredIfDue ({} : DB) (some { rid := 2, status := "EXPIRED" }) 9 =
       (some { rid := 2, status := "EXPIRED" }, ({} : DB))) := by
  have h := c3_expiry_idempotent
    { rid := 1, title := "T", status := "BIDDING", createdBy := "alice",
      biddingStartedAt := some 0, biddingCycleDays := some 0 }
    [] [] [] 1 5 77 0 rfl (by decide) (by decide) (by decide) (by decide)
    (by intro n hn; simp at hn)
  refine ⟨?_, ?_, ?_, ?_, ?_, ?_⟩
  · simpa using h.1
  · simpa using h.2.1
  · simpa using h.2.2.1
  · simpa using h.2.2.2.1
  · simpa using h.2.2.2.2.1
  · exact h.2.2.2.2.2 ({} : DB) { rid := 2, status := "EXPIRED" } 9
      (by decide)

/-! ## Claim C4 -/

/-- Claim C4, no-op part: on a document whose status is not BIDDING the
auto-advance check only attaches the offer count — no write happens. -/
theorem auto_advance_noop_of_not_bidding (db : DB) (doc : Request) (now : Int)
    (hst : jsToUpper doc.status ≠ STATUS.BIDDING) :
    autoCompleteBiddingIfEnoughOffers db (some doc) now =
      (some { doc with offersCount := some (effOffersCount db doc) }, db) := by
  simp [autoCompleteBiddingIfEnoughOffers, hst]

/-- Claim C4, zero-cap part: when `maxOffers` is 0, negative or unset, no
offer count ever triggers the transition. -/
theorem auto_advance_noop_of_no_cap (db : DB) (doc : Request) (now : Int)
    (hmax : doc.maxOffers.getD 0 ≤ 0) :
    autoCompleteBiddingIfEnoughOffers db (some doc) now =
      (some { doc with offersCount := some (effOffersCount db doc) }, db) := by
  by_cases hst : jsToUpper doc.status = STATUS.BIDDING
  · simp [autoCompleteBiddingIfEnoughOffers, hst, hmax]
  · simp [autoCompleteBiddingIfEnoughOffers, hst]

/-- Claim C4, below-threshold part: while the offer count is below the
(positive) cap, a read leaves the status BIDDING and performs no write. -/
theorem auto_advance_noop_below_threshold (db : DB) (doc : Request)
    (now : Int) (hcnt : effOffersCount db doc < doc.maxOffers.getD 0) :
    autoCompleteBiddingIfEnoughOffers db (some doc) now =
      (some { doc with offersCount := some (effOffersCount db doc) }, db) := by
  by_cases hst : jsToUpper doc.status = STATUS.BIDDING
  · by_cases hmax : doc.maxOffers.getD 0 ≤ 0
    · simp [autoCompleteBiddingIfEnoughOffers, hst, hmax]
    · simp [autoCompleteBiddingIfEnoughOffers, hst, hmax, not_le.mpr hcnt]
  · simp [autoCompleteBiddingIfEnoughOffers, hst]

/-- Claim C4, threshold part: once the offer count reaches the positive cap,
the next read moves the (single stored) BIDDING request to BID_EVALUATION and
sets `bidEvaluationAt`; the returned document already carries the new status,
so by `auto_advance_noop_of_not_bidding` a second read performs no further
write (the transition fires exactly once). -/
theorem c4_auto_advance_threshold (doc : Request) (offs : List Offer)
    (pos : List PurchaseOrder) (notifs : List Notification) (k : Nat)
    (now : Int)
    (hraw : doc.status = STATUS.BIDDING)
    (hmax : 0 < doc.maxOffers.getD 0)
    (hcnt : doc.maxOffers.getD 0 ≤
      effOffersCount { requests := [doc], offers := offs,
                       purchaseOrders := pos, notifications := notifs,
                       nextId := k } doc) :
    let db : DB := { requests := [doc], offers := offs, purchaseOrders := pos,
                     notifications := notifs, nextId := k }
    let run := autoCompleteBiddingIfEnoughOffers db (some doc) now
    run.1 = some { doc with status := STATUS.BID_EVALUATION,
                            offersCount := some (effOffersCount db doc) } ∧
    run.2.requests = [{ doc with status := STATUS.BID_EVALUATION,
                                 bidEvaluationAt := some now,
                                 updatedAt := some now }] ∧
    (∀ (dbx : DB) (d : Request) (t : Int),
      effOffersCount dbx d < d.maxOffers.getD 0 →
      autoCompleteBiddingIfEnoughOffers dbx (some d) t =
        (some { d with offersCount := some (effOffersCount dbx d) }, dbx)) ∧
    (∀ (dbx : DB) (d : Request) (t : Int), d.maxOffers.getD 0 ≤ 0 →
      autoCompleteBiddingIfEnoughOffers dbx (some d) t =
        (some { d with offersCount := some (effOffersCount dbx d) }, dbx)) ∧
    (∀ (dbx : DB) (d : Request) (t : Int),
      jsToUpper d.status ≠ STATUS.BIDDING →
      autoCompleteBiddingIfEnoughOffers dbx (some d) t =
        (some { d with offersCount := some (effOffersCount dbx d) }, dbx)) := by
  intro db run
  have hup : jsToUpper doc.status = STATUS.BIDDING := by rw [hraw]; decide
  have hm : ¬ doc.maxOffers.getD 0 ≤ 0 := not_le.mpr hmax
  refine ⟨?_, ?_, fun dbx d t h => auto_advance_noop_below_threshold dbx d t h,
    fun dbx d t h => auto_advance_noop_of_no_cap dbx d t h,
    fun dbx d t h => auto_advance_noop_of_not_bidding dbx d t h⟩
  · simp +decide [run, db, autoCompleteBiddingIfEnoughOffers, hup, hm, hcnt]
  · simp +decide [run, db, autoCompleteBiddingIfEnoughOffers, hup, hm, hcnt,
      createNotification_requests, autoAdvanceUpdate, updateFirstBy, hraw,
      apply_ite DB.requests]

/-- Witness for C4: `maxOffers = 3`; with 2 offers nothing happens, with 3
offers one read advances the request, and re-running the check on the
advanced document is a no-op. -/
theorem c4_auto_advance_threshold_witness :
    (let doc : Request := { rid := 1, status := "BIDDING",
                            createdBy := "alice", maxOffers := some 3 }
     let o : Nat → Offer := fun i => { oid := i, requestId := 1,
                                       status := "SUBMITTED" }
     let db2 : DB := { requests := [doc], offers := [o 10, o 11] }
     let db3 : DB := { requests := [doc], offers := [o 10, o 11, o 12] }
     autoCompleteBiddingIfEnoughOffers db2 (some doc) 50 =
       (some { doc with offersCount := some 2 }, db2) ∧
     (autoCompleteBiddingIfEnoughOffers db3 (some doc) 50).1 =
       some { doc with status := STATUS.BID_EVALUATION,
                       offersCount := some 3 } ∧
     (autoCompleteBiddingIfEnoughOffers db3 (some doc) 50).2.requests =
       [{ doc with status := STATUS.BID_EVALUATION,
                   bidEvaluationAt := some 50, updatedAt := some 50 }] ∧
     autoCompleteBiddingIfEnoughOffers db3
         (some { doc with status := STATUS.BID_EVALUATION,
                          offersCount := some 3 }) 60 =
       (some { doc with status := STATUS.BID_EVALUATION,
                        offersCount := some 3 }, db3) ∧
     autoCompleteBiddingIfEnoughOffers db2
         (some { doc with maxOffers := some 0 }) 50 =
       (some { doc with maxOffers := some 0, offersCount := some 2 },
        db2)) := by
  have h := c4_auto_advance_threshold
    { rid := 1, status := "BIDDING", createdBy := "alice",
      maxOffers := some 3 }
    [{ oid := 10, requestId := 1, status := "SUBMITTED" },
     { oid := 11, requestId := 1, status := "SUBMITTED" },
     { oid := 12, requestId := 1, status := "SUBMITTED" }]
    [] [] 1 50 rfl (by decide) (by decide)
  refine ⟨?_, ?_, ?_, ?_, ?_⟩
  · have hb := h.2.2.1
      { requests := [{ rid := 1, status := "BIDDING", createdBy := "alice",
                       maxOffers := some 3 }],
        offers := [{ oid := 10, requestId := 1, status := "SUBMITTED" },
                   { oid := 11, requestId := 1, status := "SUBMITTED" }] }
      { rid := 1, status := "BIDDING", createdBy := "alice",
        maxOffers := some 3 } 50 (by decide)
    simpa using hb
  · exact h.1
  · exact h.2.1
  · have hb := h.2.2.2.2
      { requests := [{ rid := 1, status := "BIDDING", createdBy := "alice",
                       maxOffers := some 3 }],
        offers := [{ oid := 10, requestId := 1, status := "SUBMITTED" },
                   { oid := 11, requestId := 1, status := "SUBMITTED" },
                   { oid := 12, requestId := 1, status := "SUBMITTED" }] }
      { rid := 1, status := "BID_EVALUATION", createdBy := "alice",
        maxOffers := some 3, offersCount := some 3 } 60 (by decide)
    simpa using hb
  · have hb := h.2.2.2.1
      { requests := [{ rid := 1, status := "BIDDING", createdBy := "alice",
                       maxOffers := some 3 }],
        offers := [{ oid := 10, requestId := 1, status := "SUBMITTED" },
                   { oid := 11, requestId := 1, status := "SUBMITTED" }] }
      { rid := 1, status := "BIDDING", createdBy := "alice",
        maxOffers := some 0 } 50 (by decide)
    simpa using hb

/-! ## Claim C1 -/

/-- Claim C1 counterexample: on a BID_EVALUATION request with two SUBMITTED
offers, recommending offer A succeeds (A becomes RECOMMENDED and the request
becomes RECOMMENDED), but the second sequential recommend call selecting
offer B is rejected with the invalid-state error and changes nothing — A, not
B, remains the RECOMMENDED offer, contrary to the claimed outcome of the
two-call scenario. -/
theorem c1_two_recommends_counterexample :
    (let db0 : DB :=
      { requests := [{ rid := 1, title := "T", status := "BID_EVALUATION",
                       createdBy := "alice" }]
        offers := [{ oid := 2, requestId := 1, providerUsername := "p1",
                     status := "SUBMITTED" },
                   { oid := 3, requestId := 1, providerUsername := "p2",
                     status := "SUBMITTED" }] }
     let step1 := recommendOfferHandler db0 "PROCUREMENT_OFFICER" "eve"
       (some 1) (some 2) 100
     let step2 := recommendOfferHandler step1.2 "PROCUREMENT_OFFICER" "eve"
       (some 1) (some 3) 200
     (findOffer step1.2 2).map Offer.status = some "RECOMMENDED" ∧
     (findRequest step1.2 1).map Request.status = some "RECOMMENDED" ∧
     step2.1 = HRes.err 403 "Only BID_EVALUATION can be recommended" ∧
     step2.2 = step1.2 ∧
     (findOffer step2.2 2).map Offer.status = some "RECOMMENDED" ∧
     (findOffer step2.2 3).map Offer.status = some "SUBMITTED") := by
  decide

/-- After the demotion pass of the recommend handler, no offer of the request
is RECOMMENDED. -/
theorem demote_clears_recommended (rid : Nat) (now : Int)
    (offers : List Offer) :
    ∀ o ∈ updateAllBy
      (fun o => o.requestId == rid && o.status == "RECOMMENDED")
      (fun o => { o with status := "SUBMITTED", updatedAt := some now })
      offers, o.requestId = rid → o.status ≠ "RECOMMENDED" := by
  intro o ho hrid
  simp only [updateAllBy, List.mem_map] at ho
  rcases ho with ⟨x, hx, hox⟩
  by_cases hc : (x.requestId == rid && x.status == "RECOMMENDED") = true
  · simp only [hc, if_true] at hox
    subst hox
    simp
  · simp only [hc, if_false, Bool.false_eq_true, ite_false] at hox
    subst hox
    simp only [Bool.and_eq_true, beq_iff_eq, not_and] at hc
    intro hst
    exact hc hrid hst

/-- Promoting the first id-matching element of a list with pairwise distinct
ids, none of whose request members is RECOMMENDED: afterwards an offer of the
request is RECOMMENDED exactly when it is the chosen one. -/
theorem promote_unique (oid rid : Nat) (now : Int) (l : List Offer)
    (hdist : l.Pairwise (fun a b => a.oid ≠ b.oid))
    (hnr : ∀ o ∈ l, o.requestId = rid → o.status ≠ "RECOMMENDED") :
    ∀ o ∈ updateFirstBy (fun o => o.oid == oid)
      (fun o => { o with status := "RECOMMENDED", updatedAt := some now }) l,
      o.requestId = rid → (o.status = "RECOMMENDED" ↔ o.oid = oid) := by
  induction l with
  | nil => intro o ho; simp [updateFirstBy] at ho
  | cons x xs ih =>
    rcases List.pairwise_cons.mp hdist with ⟨hxne, hxs⟩
    intro o ho hrid
    by_cases hq : (x.oid == oid) = true
    · rw [beq_iff_eq] at hq
      simp only [updateFirstBy, beq_iff_eq, hq, if_true, List.mem_cons] at ho
      rcases ho with ho | ho
      · subst ho
        simp [hq]
      · refine iff_of_false (hnr o (List.mem_cons_of_mem x ho) hrid) ?_
        intro hoid
        exact hxne o ho (hq.trans hoid.symm)
    · simp only [updateFirstBy, hq, Bool.false_eq_true, if_false,
        List.mem_cons] at ho
      rcases ho with ho | ho
      · subst ho
        refine iff_of_false (hnr o (List.mem_cons_self o xs) hrid) ?_
        intro hoid
        simp [hoid] at hq
      · exact ih hxs (fun y hy => hnr y (List.mem_cons_of_mem x hy)) o ho hrid

/-- Claim C1, amended: (1) after the offer writes of any successful
recommend-offer call (demote all RECOMMENDED offers of the request, then
promote the chosen offer), an offer of the request holds status RECOMMENDED
exactly when it is the chosen offer — so at most one offer per request is
RECOMMENDED after any recommend call (offer ids pairwise distinct, as Mongo
ids are); and (2) once a request's status is RECOMMENDED — as it is right
after a successful recommend call — a further recommend-offer call is
rejected with the invalid-state error and changes nothing, so the second of
two sequential calls cannot demote A and promote B. -/
theorem c1_single_recommended_amended :
    (∀ (offers : List Offer) (rid oid : Nat) (now : Int),
      offers.Pairwise (fun a b => a.oid ≠ b.oid) →
      ∀ o ∈ recommendOffersWrite offers rid oid now, o.requestId = rid →
        (o.status = "RECOMMENDED" ↔ o.oid = oid)) ∧
    (∀ (db : DB) (rh uh : String) (id : Nat) (oid : Option Nat) (t : Int)
      (doc : Request), findRequest db id = some doc →
      jsToUpper doc.status = STATUS.RECOMMENDED →
      normalizeRole rh = ROLE_EVALUATOR → normalizeUsername uh ≠ "" →
      recommendOfferHandler db rh uh (some id) oid t =
        (HRes.err 403 "Only BID_EVALUATION can be recommended", db)) := by
  constructor
  · intro offers rid oid now hdist
    have hnr := demote_clears_recommended rid now offers
    have hdistd : (updateAllBy
        (fun o => o.requestId == rid && o.status == "RECOMMENDED")
        (fun o => { o with status := "SUBMITTED", updatedAt := some now })
        offers).Pairwise (fun a b => a.oid ≠ b.oid) := by
      unfold updateAllBy
      rw [List.pairwise_map]
      refine hdist.imp ?_
      intro a b hab
      by_cases ha : (a.requestId == rid && a.status == "RECOMMENDED") = true <;>
        by_cases hb : (b.requestId == rid && b.status == "RECOMMENDED") = true <;>
          simpa [ha, hb] using hab
    exact promote_unique oid rid now _ hdistd hnr
  · intro db rh uh id oid t doc hfind hst hrole huser
    have h1 : jsToUpper doc.status ≠ STATUS.BIDDING := by rw [hst]; decide
    have h2 : jsToUpper doc.status ≠ STATUS.BID_EVALUATION := by
      rw [hst]; decide
    have hexp := expiry_noop_of_not_bidding db doc t h1
    have hadv := auto_advance_noop_of_not_bidding db doc t h1
    simp +decide [recommendOfferHandler, getUser, isEvaluator, hrole, huser,
      hfind, hexp, hadv, h2]

/-- Witness for the amended C1 at a request with a previously RECOMMENDED
offer: after choosing offer 3, offer 3 is the only RECOMMENDED offer, and a
recommend call on an already-RECOMMENDED request is rejected unchanged. -/
theorem c1_single_recommended_amended_witness :
    (∀ o ∈ recommendOffersWrite
      [{ oid := 2, requestId := 1, status := "RECOMMENDED" },
       { oid := 3, requestId := 1, status := "SUBMITTED" },
       { oid := 4, requestId := 1, status := "SHORTLISTED" }] 1 3 50,
      o.requestId = 1 → (o.status = "RECOMMENDED" ↔ o.oid = 3)) ∧
    recommendOfferHandler
        { requests := [{ rid := 1, status := "RECOMMENDED",
                         createdBy := "alice" }] }
        "PROCUREMENT_OFFICER" "eve" (some 1) (some 3) 60 =
      (HRes.err 403 "Only BID_EVALUATION can be recommended",
       { requests := [{ rid := 1, status := "RECOMMENDED",
                        createdBy := "alice" }] }) :=
  ⟨c1_single_recommended_amended.1
    [{ oid := 2, requestId := 1, status := "RECOMMENDED" },
     { oid := 3, requestId := 1, status := "SUBMITTED" },
     { oid := 4, requestId := 1, status := "SHORTLISTED" }] 1 3 50
    (by decide),
   c1_single_recommended_amended.2
    { requests := [{ rid := 1, status := "RECOMMENDED",
                     createdBy := "alice" }] }
    "PROCUREMENT_OFFICER" "eve" 1 (some 3) 60
    { rid := 1, status := "RECOMMENDED", createdBy := "alice" }
    rfl (by decide) (by decide) (by decide)⟩

/-! ## Claim C5 -/

theorem findRequest_createNotification (db : DB) (p : NotifPayload)
    (now : Int) (i : Nat) :
    findRequest (createNotification db p now) i = findRequest db i := by
  simp [findRequest, createNotification_requests]

/-- Claim C5, rejection part: place-order on a request whose status is not
SENT_TO_PO (in particular an already-ORDERED one) is rejected with the
invalid-state error and performs no write at all. -/
theorem order_rejected_if_not_sent (db : DB) (rh uh : String) (id : Nat)
    (bodyOfferId : Option Nat) (now : Int) (doc : Request)
    (hrole : normalizeRole rh = ROLE_ORDERING)
    (huser : normalizeUsername uh ≠ "")
    (hfind : findRequest db id = some doc)
    (hst : jsToUpper doc.status ≠ STATUS.SENT_TO_PO) :
    orderHandler db rh uh (some id) bodyOfferId now =
      (HRes.err 403 "Only SENT_TO_PO can be ordered", db) := by
  simp +decide [orderHandler, getUser, isOrderingRole, hrole, huser, hfind,
    hst]

/-- Claim C5: a successful place-order call on a SENT_TO_PO request (stored
with its resolved offer) moves the request to ORDERED, sets `orderId`, marks
the chosen offer ORDERED and appends exactly one purchase order; a second
place-order call on the resulting state is rejected with the invalid-state
error and changes nothing. -/
theorem c5_order_exactly_once (doc : Request) (offer : Offer)
    (pos : List PurchaseOrder) (notifs : List Notification) (k : Nat)
    (rh uh : String) (bodyOfferId bodyOfferId2 : Option Nat) (now now2 : Int)
    (hrole : normalizeRole rh = ROLE_ORDERING)
    (huser : normalizeUsername uh ≠ "")
    (hraw : doc.status = STATUS.SENT_TO_PO)
    (hres : bodyOfferId.orElse (fun _ => doc.recommendedOfferId) =
      some offer.oid)
    (hbelong : offer.requestId = doc.rid) :
    let db : DB := { requests := [doc], offers := [offer],
                     purchaseOrders := pos, notifications := notifs,
                     nextId := k }
    let run := orderHandler db rh uh (some doc.rid) bodyOfferId now
    let uname := normalizeUsername (normalizeUsername uh)
    let doc2 : Request := { doc with status := STATUS.ORDERED,
                                     orderId := some k, orderedAt := some now,
                                     orderedBy := some uname,
                                     orderedOfferId := some offer.oid,
                                     updatedAt := some now }
    run.1 = HRes.okOrder k (some doc2) ∧
    run.2.requests = [doc2] ∧
    run.2.offers = [{ offer with status := "ORDERED",
                                 updatedAt := some now }] ∧
    run.2.purchaseOrders = pos ++ [buildPurchaseOrder k doc offer uname now] ∧
    orderHandler run.2 rh uh (some doc.rid) bodyOfferId2 now2 =
      (HRes.err 403 "Only SENT_TO_PO can be ordered", run.2) := by
  intro db run uname doc2
  have hup : jsToUpper doc.status = STATUS.SENT_TO_PO := by rw [hraw]; decide
  have h1 : run.1 = HRes.okOrder k (some doc2) := by
    simp +decide [run, db, doc2, uname, orderHandler, getUser, isOrderingRole,
      hrole, huser, hup, hres, hbelong, hraw, findRequest, findOffer, findBy,
      orderRequestUpdate, updateFirstBy, findRequest_createNotification,
      createNotification_requests]
  have h2 : run.2.requests = [doc2] := by
    simp +decide [run, db, doc2, uname, orderHandler, getUser, isOrderingRole,
      hrole, huser, hup, hres, hbelong, hraw, findRequest, findOffer, findBy,
      orderRequestUpdate, updateFirstBy, createNotification_requests]
  have h3 : run.2.offers =
      [{ offer with status := "ORDERED", updatedAt := some now }] := by
    simp +decide [run, db, orderHandler, getUser, isOrderingRole,
      hrole, huser, hup, hres, hbelong, hraw, findRequest, findOffer, findBy,
      orderRequestUpdate, updateFirstBy, createNotification_offers]
  have h4 : run.2.purchaseOrders =
      pos ++ [buildPurchaseOrder k doc offer uname now] := by
    simp +decide [run, db, uname, orderHandler, getUser, isOrderingRole,
      hrole, huser, hup, hres, hbelong, hraw, findRequest, findOffer, findBy,
      orderRequestUpdate, createNotification_purchaseOrders]
  refine ⟨h1, h2, h3, h4, ?_⟩
  have hfind2 : findRequest run.2 doc.rid = some doc2 := by
    simp [findRequest, h2, findBy, doc2]
  exact order_rejected_if_not_sent run.2 rh uh doc.rid bodyOfferId2 now2 doc2
    hrole huser hfind2 (by simp [doc2]; decide)

/-- Witness for C5 at a concrete SENT_TO_PO request with its recommended
offer. -/
theorem c5_order_exactly_once_witness :
    (let doc : Request := { rid := 1, title := "T", status := "SENT_TO_PO",
                            createdBy := "alice",
                            recommendedOfferId := some 7 }
     let offer : Offer := { oid := 7, requestId := 1, price := some 100,
                            currency := "EUR", status := "RECOMMENDED" }
     let db : DB := { requests := [doc], offers := [offer], nextId := 9 }
     let run := orderHandler db "RESOURCE_PLANNER" "rp1" (some 1) none 30
     let doc2 : Request := { doc with status := STATUS.ORDERED,
                                      orderId := some 9, orderedAt := some 30,
                                      orderedBy := some "rp1",
                                      orderedOfferId := some 7,
                                      updatedAt := some 30 }
     run.1 = HRes.okOrder 9 (some doc2) ∧
     run.2.requests = [doc2] ∧
     run.2.offers = [{ offer with status := "ORDERED",
                                  updatedAt := some 30 }] ∧
     run.2.purchaseOrders = [buildPurchaseOrder 9 doc offer "rp1" 30] ∧
     orderHandler run.2 "RESOURCE_PLANNER" "rp1" (some 1) none 44 =
       (HRes.err 403 "Only SENT_TO_PO can be ordered", run.2)) := by
  have h := c5_order_exactly_once
    { rid := 1, title := "T", status := "SENT_TO_PO", createdBy := "alice",
      recommendedOfferId := some 7 }
    { oid := 7, requestId := 1, price := some 100, currency := "EUR",
      status := "RECOMMENDED" }
    [] [] 9 "RESOURCE_PLANNER" "rp1" none none 30 44
    (by decide) (by decide) rfl (by decide) rfl
  simpa using h

/-! ## Claim C7 -/

/-- Claim C7 counterexample: the submit-for-review `updateOne` filters on
`_id` alone; applied to a document whose current status is no longer the
expected prior status DRAFT (here: ORDERED) it still overwrites the status,
so not every status-mutating write includes the expected prior status as a
precondition. -/
theorem c7_unconditional_write_counterexample :
    (let db : DB := { requests := [{ rid := 1, status := "ORDERED",
                                     createdBy := "alice" }] }
     (findRequest (submitForReviewUpdate db 1 "alice" 5) 1).map
        Request.status = some STATUS.IN_REVIEW ∧
     (findRequest db 1).map Request.status = some "ORDERED") := by
  decide

/-- Claim C7, amended: exactly the reactivate, send-to-ordering, place-order,
expiry and auto-advance writes include the expected prior status in their
filter and are silently dropped on a mismatch; the submit-for-review,
review-approve, review-reject, submit-for-bidding and recommend-offer writes
(see the counterexample) filter on the id alone and overwrite regardless of
the current status. -/
theorem c7_conditional_writes_amended :
    (∀ db id uname now, (∀ r ∈ db.requests, r.rid = id →
        r.status ≠ STATUS.EXPIRED) →
      reactivateUpdate db id uname now = db) ∧
    (∀ db id uname now, (∀ r ∈ db.requests, r.rid = id →
        r.status ≠ STATUS.RECOMMENDED) →
      sendToPoUpdate db id uname now = db) ∧
    (∀ db id orderId oid uname now, (∀ r ∈ db.requests, r.rid = id →
        r.status ≠ STATUS.SENT_TO_PO) →
      orderRequestUpdate db id orderId oid uname now = db) ∧
    (∀ db id now, (∀ r ∈ db.requests, r.rid = id →
        r.status ≠ STATUS.BIDDING) →
      expireUpdate db id now = db) ∧
    (∀ db id now, (∀ r ∈ db.requests, r.rid = id →
        r.status ≠ STATUS.BIDDING) →
      autoAdvanceUpdate db id now = db) := by
  have key : ∀ (st : String) (db : DB) (id : Nat),
      (∀ r ∈ db.requests, r.rid = id → r.status ≠ st) →
      ∀ r ∈ db.requests, (r.rid == id && r.status == st) = false := by
    intro st db id h r hr
    by_cases hrid : r.rid = id
    · simp [hrid, h r hr hrid]
    · simp [hrid]
  refine ⟨?_, ?_, ?_, ?_, ?_⟩
  · intro db id uname now h
    simp [reactivateUpdate, updateFirstBy_id _ _ _ (key _ db id h)]
  · intro db id uname now h
    simp [sendToPoUpdate, updateFirstBy_id _ _ _ (key _ db id h)]
  · intro db id orderId oid uname now h
    simp [orderRequestUpdate, updateFirstBy_id _ _ _ (key _ db id h)]
  · intro db id now h
    simp [expireUpdate, updateFirstBy_id _ _ _ (key _ db id h)]
  · intro db id now h
    simp [autoAdvanceUpdate, updateFirstBy_id _ _ _ (key _ db id h)]

/-- Witness for the amended C7: on a request whose status is ORDERED, each of
the five conditional writes is a silent no-op when its expected prior status
does not match. -/
theorem c7_conditional_writes_amended_witness :
    (let db : DB := { requests := [{ rid := 1, status := "ORDERED" }] }
     reactivateUpdate db 1 "u" 5 = db ∧
     sendToPoUpdate db 1 "u" 5 = db ∧
     orderRequestUpdate db 1 2 3 "u" 5 = db ∧
     expireUpdate db 1 5 = db ∧
     autoAdvanceUpdate db 1 5 = db) := by
  refine ⟨?_, ?_, ?_, ?_, ?_⟩
  · exact c7_conditional_writes_amended.1 _ 1 "u" 5 (by decide)
  · exact c7_conditional_writes_amended.2.1 _ 1 "u" 5 (by decide)
  · exact c7_conditional_writes_amended.2.2.1 _ 1 2 3 "u" 5 (by decide)
  · exact c7_conditional_writes_amended.2.2.2.1 _ 1 5 (by decide)
  · exact c7_conditional_writes_amended.2.2.2.2 _ 1 5 (by decide)

/-! ## Claim C2 -/

/-- Claim C2: for every exposed mutating operation, a caller with a
(nonempty, normalized) role other than the operation's authorized role gets
the handler's Forbidden (403) rejection with the database untouched; and for
every ownership-guarded operation, a caller with the correct role and a
nonempty identity that is not the request creator's gets the Forbidden
"Not allowed" rejection with the database untouched. -/
theorem c2_guard_correctness (op : Op) (db : DB) (rh uh : String)
    (now : Int) :
    (normalizeRole rh ≠ "" → normalizeRole rh ≠ opRole op.kind →
      applyOp db op rh uh now = (HRes.err 403 (roleErrMsg op.kind), db)) ∧
    (∀ i doc, needsOwner op.kind = true → op.reqId = some i →
      findRequest db i = some doc →
      normalizeRole rh = opRole op.kind → normalizeUsername uh ≠ "" →
      isOwner doc (normalizeUsername uh) = false →
      applyOp db op rh uh now = (HRes.err 403 "Not allowed", db)) := by
  cases op with
  | createOp body =>
    constructor
    · intro h1 h2
      simp only [Op.kind, opRole] at h2
      simp [applyOp, createRequestHandler, getUser, isPM, h1, h2, Op.kind,
        roleErrMsg]
    · intro i doc hno _ _ _ _ _
      simp [Op.kind, needsOwner] at hno
  | updateOp id body =>
    constructor
    · intro h1 h2
      simp only [Op.kind, opRole] at h2
      simp [applyOp, updateRequestHandler, getUser, isPM, h1, h2, Op.kind,
        roleErrMsg]
    · intro i doc _ hid hfind hrole huser hown
      simp only [Op.reqId] at hid
      subst hid
      simp only [Op.kind, opRole] at hrole
      simp +decide [applyOp, updateRequestHandler, getUser, isPM, hrole,
        huser, hfind, hown]
  | deleteOp id =>
    constructor
    · intro h1 h2
      simp only [Op.kind, opRole] at h2
      simp [applyOp, deleteRequestHandler, getUser, isPM, h1, h2, Op.kind,
        roleErrMsg]
    · intro i doc _ hid hfind hrole huser hown
      simp only [Op.reqId] at hid
      subst hid
      simp only [Op.kind, opRole] at hrole
      simp +decide [applyOp, deleteRequestHandler, getUser, isPM, hrole,
        huser, hfind, hown]
  | submitForReviewOp id =>
    constructor
    · intro h1 h2
      simp only [Op.kind, opRole] at h2
      simp [applyOp, submitForReviewHandler, getUser, isPM, h1, h2, Op.kind,
        roleErrMsg]
    · intro i doc _ hid hfind hrole huser hown
      simp only [Op.reqId] at hid
      subst hid
      simp only [Op.kind, opRole] at hrole
      simp +decide [applyOp, submitForReviewHandler, getUser, isPM, hrole,
        huser, hfind, hown]
  | rpApproveOp id =>
    constructor
    · intro h1 h2
      simp only [Op.kind, opRole] at h2
      simp [applyOp, rpApproveHandler, getUser, isReviewer, h1, h2, Op.kind,
        roleErrMsg]
    · intro i doc hno _ _ _ _ _
      simp [Op.kind, needsOwner] at hno
  | rpRejectOp id reason =>
    constructor
    · intro h1 h2
      simp only [Op.kind, opRole] at h2
      simp [applyOp, rpRejectHandler, getUser, isReviewer, h1, h2, Op.kind,
        roleErrMsg]
    · intro i doc hno _ _ _ _ _
      simp [Op.kind, needsOwner] at hno
  | submitForBiddingOp id =>
    constructor
    · intro h1 h2
      simp only [Op.kind, opRole] at h2
      simp [applyOp, submitForBiddingHandler, getUser, isPM, h1, h2, Op.kind,
        roleErrMsg]
    · intro i doc _ hid hfind hrole huser hown
      simp only [Op.reqId] at hid
      subst hid
      simp only [Op.kind, opRole] at hrole
      simp +decide [applyOp, submitForBiddingHandler, getUser, isPM, hrole,
        huser, hfind, hown]
  | reactivateOp id =>
    constructor
    · intro h1 h2
      simp only [Op.kind, opRole] at h2
      simp [applyOp, reactivateHandler, getUser, isPM, h1, h2, Op.kind,
        roleErrMsg]
    · intro i doc _ hid hfind hrole huser hown
      simp only [Op.reqId] at hid
      subst hid
      simp only [Op.kind, opRole] at hrole
      simp +decide [applyOp, reactivateHandler, getUser, isPM, hrole, huser,
        hfind, hown]
  | recommendOfferOp id offerId =>
    constructor
    · intro h1 h2
      simp only [Op.kind, opRole] at h2
      simp [applyOp, recommendOfferHandler, getUser, isEvaluator, h1, h2,
        Op.kind, roleErrMsg]
    · intro i doc hno _ _ _ _ _
      simp [Op.kind, needsOwner] at hno
  | sendToPoOp id =>
    constructor
    · intro h1 h2
      simp only [Op.kind, opRole] at h2
      simp [applyOp, sendToPoHandler, getUser, isPM, h1, h2, Op.kind,
        roleErrMsg]
    · intro i doc _ hid hfind hrole huser hown
      simp only [Op.reqId] at hid
      subst hid
      simp only [Op.kind, opRole] at hrole
      simp +decide [applyOp, sendToPoHandler, getUser, isPM, hrole, huser,
        hfind, hown]
  | orderOp id offerId =>
    constructor
    · intro h1 h2
      simp only [Op.kind, opRole] at h2
      simp [applyOp, orderHandler, getUser, isOrderingRole, h1, h2, Op.kind,
        roleErrMsg]
    · intro i doc hno _ _ _ _ _
      simp [Op.kind, needsOwner] at hno

/-- Witness for C2: the reviewer role cannot submit Alice's DRAFT request for
review, and the correct role with the wrong identity ("bob") cannot
either. -/
theorem c2_guard_correctness_witness :
    (let db : DB := { requests := [{ rid := 1, status := "DRAFT",
                                     createdBy := "alice" }] }
     applyOp db (Op.submitForReviewOp (some 1)) "PROCUREMENT_OFFICER" "bob"
         5 =
       (HRes.err 403 "Only PROJECT_MANAGER can submit for review", db) ∧
     applyOp db (Op.submitForReviewOp (some 1)) "PROJECT_MANAGER" "bob" 5 =
       (HRes.err 403 "Not allowed", db)) := by
  constructor
  · exact (c2_guard_correctness (Op.submitForReviewOp (some 1))
      { requests := [{ rid := 1, status := "DRAFT", createdBy := "alice" }] }
      "PROCUREMENT_OFFICER" "bob" 5).1 (by decide) (by decide)
  · exact (c2_guard_correctness (Op.submitForReviewOp (some 1))
      { requests := [{ rid := 1, status := "DRAFT", createdBy := "alice" }] }
      "PROJECT_MANAGER" "bob" 5).2 1
      { rid := 1, status := "DRAFT", createdBy := "alice" }
      (by decide) rfl (by decide) (by decide) (by decide) (by decide)

/-! ## Claim C8 -/

/-- Claim C8: guard failures are reported as three distinct kinds. For every
operation: a missing role assertion yields the 401 unauthenticated rejection;
a missing identity (with the correct role) yields the 401 unauthenticated
rejection; an operation that is not legal from the document's current status
(with correct role and, where required, ownership) yields the handler's 403
invalid-state rejection, distinct — within the shared 403 code, by its
message — from both Forbidden rejections (wrong role, not owner); and the
wrong-role rejection itself is the 403 of `c2_guard_correctness`.  All writes
are untouched in each case. -/
theorem c8_error_kind_taxonomy (op : Op) (db : DB) (rh uh : String)
    (now : Int) :
    (normalizeRole rh = "" →
      applyOp db op rh uh now = (HRes.err 401 "Missing x-user-role", db)) ∧
    (normalizeRole rh = opRole op.kind → normalizeUsername uh = "" →
      applyOp db op rh uh now = (HRes.err 401 "Missing x-username", db)) ∧
    (∀ i doc, op.reqId = some i → findRequest db i = some doc →
      normalizeRole rh = opRole op.kind → normalizeUsername uh ≠ "" →
      (needsOwner op.kind = true →
        isOwner doc (normalizeUsername uh) = true) →
      wrongStateFor op.kind doc = true →
      applyOp db op rh uh now = (HRes.err 403 (stateErrMsg op.kind), db)) ∧
    (∀ k : OpKind, k ≠ OpKind.createK →
      stateErrMsg k ≠ roleErrMsg k ∧ stateErrMsg k ≠ "Not allowed") := by
  refine ⟨?_, ?_, ?_, ?_⟩
  · intro h1
    cases op <;> simp [applyOp, createRequestHandler, updateRequestHandler,
      deleteRequestHandler, submitForReviewHandler, rpApproveHandler,
      rpRejectHandler, submitForBiddingHandler, reactivateHandler,
      recommendOfferHandler, sendToPoHandler, orderHandler, getUser, h1]
  · intro hrole huser
    cases op <;> simp only [Op.kind, opRole] at hrole <;>
      simp +decide [applyOp, createRequestHandler, updateRequestHandler,
        deleteRequestHandler, submitForReviewHandler, rpApproveHandler,
        rpRejectHandler, submitForBiddingHandler, reactivateHandler,
        recommendOfferHandler, sendToPoHandler, orderHandler, getUser, isPM,
        isReviewer, isEvaluator, isOrderingRole, hrole, huser]
  · intro i doc hid hfind hrole huser hown hws
    cases op with
    | createOp body => simp [Op.kind, wrongStateFor] at hws
    | updateOp id body =>
      simp only [Op.reqId] at hid
      subst hid
      simp only [Op.kind, opRole] at hrole
      have ho := hown (by simp [Op.kind, needsOwner])
      simp only [Op.kind, wrongStateFor, bne_iff_ne, ne_eq] at hws
      simp +decide [applyOp, updateRequestHandler, getUser, isPM, hrole,
        huser, hfind, ho, hws, Op.kind, stateErrMsg]
    | deleteOp id =>
      simp only [Op.reqId] at hid
      subst hid
      simp only [Op.kind, opRole] at hrole
      have ho := hown (by simp [Op.kind, needsOwner])
      simp only [Op.kind, wrongStateFor, bne_iff_ne, ne_eq] at hws
      simp +decide [applyOp, deleteRequestHandler, getUser, isPM, hrole,
        huser, hfind, ho, hws, Op.kind, stateErrMsg]
    | submitForReviewOp id =>
      simp only [Op.reqId] at hid
      subst hid
      simp only [Op.kind, opRole] at hrole
      have ho := hown (by simp [Op.kind, needsOwner])
      simp only [Op.kind, wrongStateFor, bne_iff_ne, ne_eq] at hws
      simp +decide [applyOp, submitForReviewHandler, getUser, isPM, hrole,
        huser, hfind, ho, hws, Op.kind, stateErrMsg]
    | rpApproveOp id =>
      simp only [Op.reqId] at hid
      subst hid
      simp only [Op.kind, opRole] at hrole
      simp only [Op.kind, wrongStateFor, bne_iff_ne, ne_eq] at hws
      simp +decide [applyOp, rpApproveHandler, getUser, isReviewer, hrole,
        huser, hfind, hws, Op.kind, stateErrMsg]
    | rpRejectOp id reason =>
      simp only [Op.reqId] at hid
      subst hid
      simp only [Op.kind, opRole] at hrole
      simp only [Op.kind, wrongStateFor, bne_iff_ne, ne_eq] at hws
      simp +decide [applyOp, rpRejectHandler, getUser, isReviewer, hrole,
        huser, hfind, hws, Op.kind, stateErrMsg]
    | submitForBiddingOp id =>
      simp only [Op.reqId] at hid
      subst hid
      simp only [Op.kind, opRole] at hrole
      have ho := hown (by simp [Op.kind, needsOwner])
      simp only [Op.kind, wrongStateFor, bne_iff_ne, ne_eq] at hws
      simp +decide [applyOp, submitForBiddingHandler, getUser, isPM, hrole,
        huser, hfind, ho, hws, Op.kind, stateErrMsg]
    | reactivateOp id =>
      simp only [Op.reqId] at hid
      subst hid
      simp only [Op.kind, opRole] at hrole
      have ho := hown (by simp [Op.kind, needsOwner])
      simp only [Op.kind, wrongStateFor, bne_iff_ne, ne_eq] at hws
      simp +decide [applyOp, reactivateHandler, getUser, isPM, hrole, huser,
        hfind, ho, hws, Op.kind, stateErrMsg]
    | recommendOfferOp id offerId =>
      simp only [Op.reqId] at hid
      subst hid
      simp only [Op.kind, opRole] at hrole
      simp only [Op.kind, wrongStateFor, Bool.and_eq_true, bne_iff_ne,
        ne_eq] at hws
      have hexp := expiry_noop_of_not_bidding db doc now hws.2
      have hadv := auto_advance_noop_of_not_bidding db doc now hws.2
      simp +decide [applyOp, recommendOfferHandler, getUser, isEvaluator,
        hrole, huser, hfind, hexp, hadv, hws.1, Op.kind, stateErrMsg]
    | sendToPoOp id =>
      simp only [Op.reqId] at hid
      subst hid
      simp only [Op.kind, opRole] at hrole
      have ho := hown (by simp [Op.kind, needsOwner])
      simp only [Op.kind, wrongStateFor, bne_iff_ne, ne_eq] at hws
      simp +decide [applyOp, sendToPoHandler, getUser, isPM, hrole, huser,
        hfind, ho, hws, Op.kind, stateErrMsg]
    | orderOp id offerId =>
      simp only [Op.reqId] at hid
      subst hid
      simp only [Op.kind, opRole] at hrole
      simp only [Op.kind, wrongStateFor, bne_iff_ne, ne_eq] at hws
      simp +decide [applyOp, orderHandler, getUser, isOrderingRole, hrole,
        huser, hfind, hws, Op.kind, stateErrMsg]
  · intro k hk
    cases k with
    | createK => exact absurd rfl hk
    | updateK => exact ⟨by decide, by decide⟩
    | deleteK => exact ⟨by decide, by decide⟩
    | submitForReviewK => exact ⟨by decide, by decide⟩
    | rpApproveK => exact ⟨by decide, by decide⟩
    | rpRejectK => exact ⟨by decide, by decide⟩
    | submitForBiddingK => exact ⟨by decide, by decide⟩
    | reactivateK => exact ⟨by decide, by decide⟩
    | recommendOfferK => exact ⟨by decide, by decide⟩
    | sendToPoK => exact ⟨by decide, by decide⟩
    | orderK => exact ⟨by decide, by decide⟩

/-- Witness for C8 on submit-for-review against an ORDERED request owned by
alice: missing role is 401, missing username is 401, wrong state is the 403
invalid-state message, which differs from both Forbidden messages. -/
theorem c8_error_kind_taxonomy_witness :
    (let db : DB := { requests := [{ rid := 1, status := "ORDERED",
                                     createdBy := "alice" }] }
     applyOp db (Op.submitForReviewOp (some 1)) "" "alice" 5 =
       (HRes.err 401 "Missing x-user-role", db) ∧
     applyOp db (Op.submitForReviewOp (some 1)) "PROJECT_MANAGER" "" 5 =
       (HRes.err 401 "Missing x-username", db) ∧
     applyOp db (Op.submitForReviewOp (some 1)) "PROJECT_MANAGER" "alice" 5 =
       (HRes.err 403 "Only DRAFT can be submitted for review", db) ∧
     stateErrMsg OpKind.submitForReviewK ≠
       roleErrMsg OpKind.submitForReviewK ∧
     stateErrMsg OpKind.submitForReviewK ≠ "Not allowed") := by
  refine ⟨?_, ?_, ?_, ?_, ?_⟩
  · exact (c8_error_kind_taxonomy (Op.submitForReviewOp (some 1))
      { requests := [{ rid := 1, status := "ORDERED",
                       createdBy := "alice" }] } "" "alice" 5).1 (by decide)
  · exact (c8_error_kind_taxonomy (Op.submitForReviewOp (some 1))
      { requests := [{ rid := 1, status := "ORDERED",
                       createdBy := "alice" }] } "PROJECT_MANAGER" "" 5).2.1
      (by decide) (by decide)
  · exact (c8_error_kind_taxonomy (Op.submitForReviewOp (some 1))
      { requests := [{ rid := 1, status := "ORDERED",
                       createdBy := "alice" }] } "PROJECT_MANAGER" "alice"
      5).2.2.1 1 { rid := 1, status := "ORDERED", createdBy := "alice" }
      rfl rfl (by decide) (by decide) (fun _ => by decide) (by decide)
  · exact ((c8_error_kind_taxonomy (Op.submitForReviewOp (some 1))
      { requests := [{ rid := 1, status := "ORDERED",
                       createdBy := "alice" }] } "PROJECT_MANAGER" "alice"
      5).2.2.2 OpKind.submitForReviewK (by decide)).1
  · exact ((c8_error_kind_taxonomy (Op.submitForReviewOp (some 1))
      { requests := [{ rid := 1, status := "ORDERED",
                       createdBy := "alice" }] } "PROJECT_MANAGER" "alice"
      5).2.2.2 OpKind.submitForReviewK (by decide)).2

/-! ## Claim C9 -/

/-- Claim C9 counterexample: the offer list route of routes/offers.js takes
no caller role or identity at all and applies no scoping — any caller (here:
no asserted role whatsoever) receives every offer of the request, including
another provider's offer, contradicting both the own-offers-only rule for
submitting parties and the rule that no caller outside the listed roles can
list a request's offers. -/
theorem c9_unscoped_list_counterexample :
    (let db : DB := { offers := [{ oid := 1, requestId := 5,
                                   providerUsername := "alice",
                                   spUsername := "alice",
                                   status := "SUBMITTED" }] }
     offersListHandler db (some 5) =
       (HRes.okList [{ oid := 1, requestId := 5,
                       providerUsername := "alice", spUsername := "alice",
                       status := "SUBMITTED" }], db)) := by
  decide

/-- Claim C9, amended: the scoped variant (part_009) enforces role scoping —
PROJECT_MANAGER, RESOURCE_PLANNER and PROCUREMENT_OFFICER receive every
offer of the request, a SERVICE_PROVIDER receives exactly the offers whose
`spUsername` equals its own normalized identity, and every other (nonempty)
role is rejected with the Forbidden "Not allowed" rejection — which also
rejects SYSTEM_ADMIN, so even in this variant an admin cannot list offers;
the plain routes/offers.js list route (see the counterexample) applies no
scoping at all. -/
theorem c9_scoped_list_amended (db : DB) (rh uh : String) (rid : Nat) :
    (spNormalizeRole rh = "PROJECT_MANAGER" ∨
     spNormalizeRole rh = "RESOURCE_PLANNER" ∨
     spNormalizeRole rh = "PROCUREMENT_OFFICER" →
      offersListScopedHandler db rh uh (some rid) =
        (HRes.okList (db.offers.filter (fun o => o.requestId == rid)),
         db)) ∧
    (spNormalizeRole rh = "SERVICE_PROVIDER" →
      offersListScopedHandler db rh uh (some rid) =
        (HRes.okList (db.offers.filter (fun o => o.requestId == rid &&
           o.spUsername == normalizeUsername uh)), db)) ∧
    (spNormalizeRole rh ≠ "" → canReadOffers (spNormalizeRole rh) = false →
      offersListScopedHandler db rh uh (some rid) =
        (HRes.err 403 "Not allowed", db)) := by
  refine ⟨?_, ?_, ?_⟩
  · intro h
    rcases h with h | h | h <;>
      simp +decide [offersListScopedHandler, canReadOffers, spIsPM, spIsRP,
        spIsPO, spIsSP, h]
  · intro h
    simp +decide [offersListScopedHandler, canReadOffers, spIsPM, spIsRP,
      spIsPO, spIsSP, h]
  · intro h1 h2
    simp [offersListScopedHandler, h1, h2]

/-- Witness for the amended C9: the evaluator role sees both offers, a
service provider sees only its own, and SYSTEM_ADMIN is rejected. -/
theorem c9_scoped_list_amended_witness :
    (let oa : Offer := { oid := 1, requestId := 5, spUsername := "alice",
                         status := "SUBMITTED" }
     let ob : Offer := { oid := 2, requestId := 5, spUsername := "bob",
                         status := "SUBMITTED" }
     let db : DB := { offers := [oa, ob] }
     offersListScopedHandler db "PROCUREMENT_OFFICER" "eve" (some 5) =
       (HRes.okList [oa, ob], db) ∧
     offersListScopedHandler db "SERVICE_PROVIDER" "bob" (some 5) =
       (HRes.okList [ob], db) ∧
     offersListScopedHandler db "SYSTEM_ADMIN" "root" (some 5) =
       (HRes.err 403 "Not allowed", db)) := by
  refine ⟨?_, ?_, ?_⟩
  · have h := (c9_scoped_list_amended
      { offers := [{ oid := 1, requestId := 5, spUsername := "alice",
                     status := "SUBMITTED" },
                   { oid := 2, requestId := 5, spUsername := "bob",
                     status := "SUBMITTED" }] }
      "PROCUREMENT_OFFICER" "eve" 5).1 (by decide)
    simpa using h
  · have h := (c9_scoped_list_amended
      { offers := [{ oid := 1, requestId := 5, spUsername := "alice",
                     status := "SUBMITTED" },
                   { oid := 2, requestId := 5, spUsername := "bob",
                     status := "SUBMITTED" }] }
      "SERVICE_PROVIDER" "bob" 5).2.1 (by decide)
    exact h
  · exact (c9_scoped_list_amended
      { offers := [{ oid := 1, requestId := 5, spUsername := "alice",
                     status := "SUBMITTED" },
                   { oid := 2, requestId := 5, spUsername := "bob",
                     status := "SUBMITTED" }] }
      "SYSTEM_ADMIN" "root" 5).2.2 (by decide) (by decide)

/-! ## Claim C6 -/

/-- Claim C6 counterexample: the owner's DRAFT update operation copies the
request body field-by-field into the document, so it can set `status` to a
value outside the ten-value enum. -/
theorem c6_status_enum_counterexample :
    (let db : DB := { requests := [{ rid := 1, title := "T",
                                     status := "DRAFT",
                                     createdBy := "alice" }] }
     let run := applyOp db
       (Op.updateOp (some 1) { status := some "NOT_A_REAL_STATUS" })
       "PROJECT_MANAGER" "alice" 9
     (findRequest run.2 1).map Request.status = some "NOT_A_REAL_STATUS" ∧
     statusOk "NOT_A_REAL_STATUS" = false) := by
  decide

theorem statusesOk_updateFirstBy {p : Request → Bool} {f : Request → Request}
    {l : List Request} (hl : ∀ r ∈ l, statusOk r.status = true)
    (hf : ∀ r, statusOk (f r).status = true) :
    ∀ r ∈ updateFirstBy p f l, statusOk r.status = true := by
  intro r hr
  rcases mem_updateFirstBy hr with h | ⟨x, _, _, hfx⟩
  · exact hl r h
  · rw [hfx]
    exact hf x

theorem statusesOk_createNotification {db : DB} {p : NotifPayload}
    {now : Int} (h : dbStatusesOk db) :
    dbStatusesOk (createNotification db p now) := by
  intro r hr
  rw [createNotification_requests] at hr
  exact h r hr

theorem statusesOk_ensureExpired (db : DB) (doc? : Option Request)
    (now : Int) (h : dbStatusesOk db) :
    dbStatusesOk (ensureExpiredIfDue db doc? now).2 := by
  simp only [ensureExpiredIfDue]
  repeat' split
  all_goals first
    | exact h
    | (apply statusesOk_createNotification
       intro r hr
       refine statusesOk_updateFirstBy h ?_ r hr
       intro x
       rfl)
    | (intro r hr
       refine statusesOk_updateFirstBy h ?_ r hr
       intro x
       rfl)

theorem statusesOk_autoComplete (db : DB) (doc? : Option Request)
    (now : Int) (h : dbStatusesOk db) :
    dbStatusesOk (autoCompleteBiddingIfEnoughOffers db doc? now).2 := by
  simp only [autoCompleteBiddingIfEnoughOffers]
  repeat' first
    | split
    | apply statusesOk_createNotification
  all_goals first
    | exact h
    | (intro r hr
       refine statusesOk_updateFirstBy h ?_ r hr
       intro x
       rfl)

/-- Claim C6, amended: every exposed mutating operation except the DRAFT
update preserves the invariant that each stored request's `status` is one of
the ten enum values — the transition handlers and the background transitions
write only constant enum statuses and create initializes to DRAFT; the owner
update operation (see the counterexample) copies the payload's `status`
verbatim and can leave the enum. -/
theorem c6_status_enum_amended (op : Op) (db : DB) (rh uh : String)
    (now : Int) (hnu : op.kind ≠ OpKind.updateK) (hok : dbStatusesOk db) :
    dbStatusesOk (applyOp db op rh uh now).2 := by
  cases op with
  | updateOp id body => exact absurd rfl hnu
  | createOp body =>
    simp only [applyOp, createRequestHandler]
    repeat' split
    all_goals try exact hok
    apply statusesOk_createNotification
    intro r hr
    rcases List.mem_append.mp hr with h | h
    · exact hok r h
    · rw [List.mem_singleton.mp h]
      rfl
  | deleteOp id =>
    simp only [applyOp, deleteRequestHandler]
    repeat' split
    all_goals try exact hok
    intro r hr
    exact hok r (mem_removeFirstBy hr)
  | submitForReviewOp id =>
    simp only [applyOp, submitForReviewHandler, submitForReviewUpdate]
    repeat' split
    all_goals first
      | exact hok
      | (apply statusesOk_createNotification
         apply statusesOk_createNotification
         intro r hr
         refine statusesOk_updateFirstBy hok ?_ r hr
         intro x
         rfl)
  | rpApproveOp id =>
    simp only [applyOp, rpApproveHandler, rpApproveUpdate]
    repeat' split
    all_goals first
      | exact hok
      | (apply statusesOk_createNotification
         intro r hr
         refine statusesOk_updateFirstBy hok ?_ r hr
         intro x
         rfl)
  | rpRejectOp id reason =>
    simp only [applyOp, rpRejectHandler, rpRejectUpdate]
    repeat' split
    all_goals first
      | exact hok
      | (apply statusesOk_createNotification
         intro r hr
         refine statusesOk_updateFirstBy hok ?_ r hr
         intro x
         rfl)
  | submitForBiddingOp id =>
    simp only [applyOp, submitForBiddingHandler, submitForBiddingUpdate]
    repeat' split
    all_goals first
      | exact hok
      | (apply statusesOk_createNotification
         apply statusesOk_createNotification
         intro r hr
         refine statusesOk_updateFirstBy hok ?_ r hr
         intro x
         rfl)
  | reactivateOp id =>
    simp only [applyOp, reactivateHandler, reactivateUpdate]
    repeat' split
    all_goals first
      | exact hok
      | (apply statusesOk_createNotification
         intro r hr
         refine statusesOk_updateFirstBy hok ?_ r hr
         intro x
         rfl)
  | recommendOfferOp id offerId =>
    simp only [applyOp, recommendOfferHandler, recommendRequestUpdate]
    repeat' split
    all_goals first
      | exact hok
      | exact statusesOk_autoComplete _ _ _
          (statusesOk_ensureExpired _ _ _ hok)
      | (apply statusesOk_createNotification
         apply statusesOk_createNotification
         intro r hr
         refine statusesOk_updateFirstBy
           (statusesOk_autoComplete _ _ _
             (statusesOk_ensureExpired _ _ _ hok)) ?_ r hr
         intro x
         rfl)
  | sendToPoOp id =>
    simp only [applyOp, sendToPoHandler, sendToPoUpdate]
    repeat' split
    all_goals first
      | exact hok
      | (apply statusesOk_createNotification
         apply statusesOk_createNotification
         intro r hr
         refine statusesOk_updateFirstBy hok ?_ r hr
         intro x
         rfl)
  | orderOp id offerId =>
    simp only [applyOp, orderHandler, orderRequestUpdate]
    repeat' split
    all_goals first
      | exact hok
      | (apply statusesOk_createNotification
         apply statusesOk_createNotification
         intro r hr
         refine statusesOk_updateFirstBy hok ?_ r hr
         intro x
         rfl)

/-- Witness for the amended C6: submit-for-review on a DRAFT request keeps
every stored status inside the enum. -/
theorem c6_status_enum_amended_witness :
    ((Op.submitForReviewOp (some 1)).kind ≠ OpKind.updateK ∧
     dbStatusesOk
       (applyOp { requests := [{ rid := 1, title := "T", status := "DRAFT",
                                 createdBy := "alice" }] }
         (Op.submitForReviewOp (some 1)) "PROJECT_MANAGER" "alice" 9).2) :=
  ⟨by decide, c6_status_enum_amended (Op.submitForReviewOp (some 1))
    { requests := [{ rid := 1, title := "T", status := "DRAFT",
                     createdBy := "alice" }] }
    "PROJECT_MANAGER" "alice" 9 (by decide)
    (by intro r hr; simp only [List.mem_singleton] at hr; subst hr; rfl)⟩

end SMS
